import Mathlib

/-!
Verification of the intervals-icu MCP server (Python) against its
natural-language specification, via a shallow embedding in Lean 4.

Conventions of the embedding:
* Calendar dates are modelled as day numbers (Int): the number of days
  since 1970-01-01 in the proleptic Gregorian calendar, so that day 0 is
  a Thursday and the Python `date.weekday()` (Monday = 0) of day `t` is
  `(t + 3) % 7`.
* Python dictionaries that flow through JSON are modelled by the `JVal`
  type; object fields are insertion-ordered association lists, as in
  CPython dicts.
* Python float-valued model fields (`distance`, `distance_target`,
  `icu_intensity`) are modelled with `Int` values: no claim depends on
  fractional values of these pass-through fields, only on their Python
  truthiness, which the `Int` model preserves (0 is falsy).
* Each tool is a function of its parameters, the ambient date, the
  injected context, and oracles giving the result of each remote call.
  It returns the outcome (a returned JSON envelope, or an exception that
  escaped) together with the ordered log of client actions performed.
-/

namespace IntervalsIcu

/-- JSON-like values: the shape of all tool payloads and envelopes. -/
inductive JVal where
  | null
  | bool (b : Bool)
  | int (n : Int)
  | str (s : String)
  | arr (xs : List JVal)
  | obj (fields : List (String × JVal))

/-- Python truthiness of an optional integer field (None and 0 are falsy). -/
def truthyInt : Option Int → Bool
  | none => false
  | some n => n != 0

/-- Python truthiness of an optional string field (None and the empty string are falsy). -/
def truthyStr : Option String → Bool
  | none => false
  | some s => s != ""

/-- Python `a or b` on optional integers: the first truthy operand, else `b`. -/
def pyOrInt (a b : Option Int) : Option Int :=
  if truthyInt a then a else b

/-- Python `a or dflt` on an optional string with a string default. -/
def orElseStr (a : Option String) (dflt : String) : String :=
  match a with
  | some s => if s = "" then dflt else s
  | none => dflt

/-- Python `a or b or dflt` chains on optional strings: first truthy, else the default. -/
def firstTruthyStr (xs : List (Option String)) (dflt : String) : String :=
  match xs with
  | [] => dflt
  | x :: rest =>
    match x with
    | some s => if s = "" then firstTruthyStr rest dflt else s
    | none => firstTruthyStr rest dflt

/-- Keep an optional field only when it is truthy, as the Python
`if x: item[k] = x` idiom does for integer-valued fields. -/
def keepInt (a : Option Int) : Option Int :=
  if truthyInt a then a else none

/-- Keep an optional string field only when truthy. -/
def keepStr (a : Option String) : Option String :=
  if truthyStr a then a else none

/-! ## Date model

`daysFromCivil`/`civilFromDays` are the standard proleptic-Gregorian
day-count conversions; they model the arithmetic of Python `datetime.date`.
-/

/-- Day number of a Gregorian date (days since 1970-01-01). -/
def daysFromCivil (y m d : Int) : Int :=
  let y2 := if m ≤ 2 then y - 1 else y
  let era := (if 0 ≤ y2 then y2 else y2 - 399) / 400
  let yoe := y2 - era * 400
  let mp := if 2 < m then m - 3 else m + 9
  let doy := (153 * mp + 2) / 5 + d - 1
  let doe := yoe * 365 + yoe / 4 - yoe / 100 + doy
  era * 146097 + doe - 719468

/-- Gregorian date (year, month, day) of a day number. -/
def civilFromDays (t : Int) : Int × Int × Int :=
  let z := t + 719468
  let era := (if 0 ≤ z then z else z - 146096) / 146097
  let doe := z - era * 146097
  let yoe := (doe - doe / 1460 + doe / 36524 - doe / 146096) / 365
  let y := yoe + era * 400
  let doy := doe - (365 * yoe + yoe / 4 - yoe / 100)
  let mp := (5 * doy + 2) / 153
  let d := doy - (153 * mp + 2) / 5 + 1
  let m := if mp < 10 then mp + 3 else mp - 9
  (if m ≤ 2 then y + 1 else y, m, d)

/-- Python `date.weekday()` under the day-number model: Monday = 0.
Day 0 (1970-01-01) is a Thursday. -/
def weekday (t : Int) : Int :=
  (t + 3) % 7

/-- Whether a Gregorian year is a leap year. -/
def isLeap (y : Int) : Bool :=
  (y % 4 = 0 && y % 100 != 0) || y % 400 = 0

/-- Number of days in a month of a given year. -/
def daysInMonth (y m : Int) : Int :=
  if m = 2 then (if isLeap y then 29 else 28)
  else if m = 4 || m = 6 || m = 9 || m = 11 then 30
  else 31

/-- Whether every character of the char list is an ASCII digit. -/
def allDigits (cs : List Char) : Bool :=
  cs.all (fun c => c.isDigit)

/-- Numeric value of a digit string (little helper for `parseDate`). -/
def digitsToNat (cs : List Char) : Nat :=
  cs.foldl (fun acc c => acc * 10 + (c.toNat - 48)) 0

/-- The dash character separating the date components. -/
def dashChar : Char := Char.ofNat 45

/-- Split a character list at every separator, as Python str.split with
a one-character separator does (adjacent separators yield empty parts). -/
def splitChars (cs : List Char) : List (List Char) :=
  match cs with
  | [] => [[]]
  | c :: rest =>
    if c = dashChar then [] :: splitChars rest
    else
      match splitChars rest with
      | [] => [[c]]
      | g :: gs => (c :: g) :: gs

/-- Models `datetime.strptime(s, "%Y-%m-%d").date()`: three dash-separated
all-digit components with a valid month and day of month, mapped to the
day number; `none` models the ValueError the Python call raises. -/
def parseDate (s : String) : Option Int :=
  match splitChars s.data with
  | [ys, ms, ds] =>
    if allDigits ys && allDigits ms && allDigits ds
        && ys ≠ [] && ms ≠ [] && ds ≠ [] then
      let y : Int := digitsToNat ys
      let m : Int := digitsToNat ms
      let d : Int := digitsToNat ds
      if 1 ≤ m && m ≤ 12 && 1 ≤ d && d ≤ daysInMonth y m then
        some (daysFromCivil y m d)
      else none
    else none
  | _ => none

/-- Left-pad the decimal form of a nonnegative Int to two digits. -/
def pad2 (n : Int) : String :=
  if n < 10 then "0" ++ toString n else toString n

/-- Left-pad the decimal form of a nonnegative Int to four digits. -/
def pad4 (n : Int) : String :=
  if n < 10 then "000" ++ toString n
  else if n < 100 then "00" ++ toString n
  else if n < 1000 then "0" ++ toString n
  else toString n

/-- Models `date.isoformat()` under the day-number model. -/
def isoDate (t : Int) : String :=
  match civilFromDays t with
  | (y, m, d) => pad4 y ++ "-" ++ pad2 m ++ "-" ++ pad2 d

/-! ## Data model (models.py) -/

/-- Calendar event, from models.py class Event (claim-relevant fields;
float fields are modelled with Int values, see the header note). -/
structure Event where
  id : Int
  start_date_local : String
  category : Option String := none
  name : Option String := none
  description : Option String := none
  type : Option String := none
  distance : Option Int := none
  distance_target : Option Int := none
  moving_time : Option Int := none
  icu_training_load : Option Int := none
  icu_intensity : Option Int := none
deriving DecidableEq

/-- Library workout, from models.py class Workout (claim-relevant fields). -/
structure Workout where
  id : Int
  name : Option String := none
  description : Option String := none
  folder_id : Option Int := none
  moving_time : Option Int := none
  icu_training_load : Option Int := none
  type : Option String := none

/-- Workout folder or training plan, from models.py class Folder
(claim-relevant fields). -/
structure Folder where
  id : Int
  type : Option String := none
  name : Option String := none
  description : Option String := none
  visibility : Option String := none
  num_workouts : Option Int := none
  start_date_local : Option String := none
  duration_weeks : Option Int := none

/-- Activity summary, from models.py class ActivitySummary (only the id is
claim-relevant: the truncation claims depend on list lengths alone). -/
structure ActivitySummary where
  id : String
  name : Option String := none
  type : Option String := none

/-- Activity search result, from models.py class ActivitySearchResult
(only the id is claim-relevant). -/
structure ActivitySearchResult where
  id : String
  name : Option String := none

/-- Modelled from the spec: src/ lacks auth.py, which defines ICUConfig.
Per spec section 6, the ambient configuration supplies the athlete id and
the API key for each call. -/
structure ICUConfig where
  intervals_icu_athlete_id : String
  intervals_icu_api_key : String

/-! ## Client and tool plumbing -/

/-- Outcome of one remote call as seen by a tool body: a value, an
ICUAPIError raised by the client (client.py translates every HTTP and
transport failure into this one error kind), or any other exception. -/
inductive ClientResult (α : Type) where
  | ok (a : α)
  | icuError (message : String)
  | exn (message : String)

/-- One observable client action, in the order the tool performs them.
Date-range parameters are day numbers under the date model. -/
inductive ClientCall where
  | openClient
  | getEvents (oldest newest : Int)
  | getWorkoutFolders
  | createFolder (data : JVal)
  | bulkCreateWorkouts (payload : List (List (String × JVal)))
  | deleteFolder (folder_id : Int)

/-- What a tool invocation does at its boundary: return a JSON envelope,
or let an exception escape to the caller. -/
inductive ToolOutcome where
  | returned (v : JVal)
  | raised (message : String)

/-- Modelled from the spec: src/ lacks response_builder.py. Per spec
section 4.2 the success envelope is an object with a data key, plus
optional metadata, query_type and analysis keys. -/
def buildResponse (data : JVal) (metadata : Option JVal)
    (queryType : Option String) (analysis : Option JVal) : JVal :=
  JVal.obj
    ([("data", data)]
      ++ (match metadata with | some m => [("metadata", m)] | none => [])
      ++ (match queryType with | some q => [("query_type", JVal.str q)] | none => [])
      ++ (match analysis with | some a => [("analysis", a)] | none => []))

/-- Modelled from the spec: src/ lacks response_builder.py. Per spec
section 4.2 the error envelope is an object with a single error key
holding the message and the error type. -/
def buildErrorResponse (message : String) (errorType : String) : JVal :=
  JVal.obj [("error", JVal.obj [("message", JVal.str message), ("type", JVal.str errorType)])]

/-- Whether an envelope is an error envelope of the given type. -/
def isErrorEnvelope (v : JVal) (errorType : String) : Prop :=
  ∃ message, v = buildErrorResponse message errorType

/-! ## Pure reshaping helpers shared by the event tools (events.py) -/

/-- The character T, used to separate the date and time parts of an
ISO-8601 timestamp. -/
def tChar : Char := Char.ofNat 84

/-- Python `s.split("T")[0]`: the prefix of the string before the first
T, or the whole string when no T occurs. -/
def dateKey (s : String) : String :=
  String.mk (s.data.takeWhile (fun c => c ≠ tChar))

/-- Relative-timing label of get_calendar_events (events.py lines 74-81):
today, n_days_ago for strictly earlier dates, in_n_days for strictly
later ones. -/
def relativeTiming (dateObj today : Int) : String :=
  if dateObj = today then "today"
  else if dateObj < today then toString (today - dateObj) ++ "_days_ago"
  else "in_" ++ toString (dateObj - today) ++ "_days"

/-- Relative-timing label of get_upcoming_workouts (events.py lines
198-204): today, tomorrow for exactly one day ahead, in_n_days otherwise
(n is the signed day difference, as in the Python f-string). -/
def upcomingRelativeTiming (dateObj today : Int) : String :=
  if dateObj = today then "today"
  else if dateObj = today + 1 then "tomorrow"
  else "in_" ++ toString (dateObj - today) ++ "_days"

/-- One entry of the events_by_date groups built by get_calendar_events
(events.py lines 83-113). Conditional dictionary keys are Options; a
field is rendered only when present. -/
structure CalItem where
  date : String
  relative_timing : String
  name : String
  category : Option String
  type : Option String
  distance_meters : Option Int
  duration_seconds : Option Int
  training_load : Option Int
  intensity_factor : Option Int
  description : Option String

/-- JSON value of an optional string (Python None becomes null). -/
def jStrOpt : Option String → JVal
  | none => JVal.null
  | some s => JVal.str s

/-- Append a key only when the optional integer field is present. -/
def optIntField (k : String) : Option Int → List (String × JVal)
  | none => []
  | some n => [(k, JVal.int n)]

/-- Append a key only when the optional string field is present. -/
def optStrField (k : String) : Option String → List (String × JVal)
  | none => []
  | some s => [(k, JVal.str s)]

/-- Render a calendar item as the JSON object the tool emits, keys in
insertion order. -/
def calItemJson (it : CalItem) : JVal :=
  JVal.obj
    ([("date", JVal.str it.date), ("relative_timing", JVal.str it.relative_timing),
      ("name", JVal.str it.name), ("category", jStrOpt it.category)]
      ++ optStrField "type" it.type
      ++ optIntField "distance_meters" it.distance_meters
      ++ optIntField "duration_seconds" it.duration_seconds
      ++ optIntField "training_load" it.training_load
      ++ optIntField "intensity_factor" it.intensity_factor
      ++ optStrField "description" it.description)

/-- Build one calendar item (events.py lines 64-113 loop body for one
event). Fails, as strptime does, when the date part of start_date_local
is not a valid date. -/
def mkCalItem (today : Int) (e : Event) : Except String CalItem :=
  let date := dateKey e.start_date_local
  match parseDate date with
  | none => Except.error ("time data " ++ date ++ " does not match format %Y-%m-%d")
  | some dateObj =>
    Except.ok
      { date := date
        relative_timing := relativeTiming dateObj today
        name := firstTruthyStr [e.name, e.category] "Event"
        category := e.category
        type := keepStr e.type
        distance_meters :=
          if e.category = some "WORKOUT" then keepInt (pyOrInt e.distance e.distance_target)
          else none
        duration_seconds :=
          if e.category = some "WORKOUT" then keepInt e.moving_time else none
        training_load :=
          if e.category = some "WORKOUT" then keepInt e.icu_training_load else none
        intensity_factor :=
          if e.category = some "WORKOUT" then keepInt e.icu_intensity else none
        description := (keepStr e.description).map String.trim }

/-- Append an item to the group of its key, preserving Python dict
insertion order: a new key goes to the end, an existing key keeps its
position and appends to its list. -/
def insertGroup (groups : List (String × List CalItem)) (k : String) (it : CalItem) :
    List (String × List CalItem) :=
  match groups with
  | [] => [(k, [it])]
  | (k0, items) :: rest =>
    if k0 = k then (k0, items ++ [it]) :: rest
    else (k0, items) :: insertGroup rest k it

/-- The grouping loop of get_calendar_events (events.py lines 63-113):
events in order, each appended to the group of its date key. -/
def buildEventsByDate (today : Int) (events : List Event) :
    Except String (List (String × List CalItem)) :=
  events.foldlM
    (fun groups e => do
      let it ← mkCalItem today e
      pure (insertGroup groups (dateKey e.start_date_local) it))
    []

/-- Sort key relation of events.sort(key=lambda x: x.start_date_local). -/
def eventLe (a b : Event) : Prop :=
  a.start_date_local ≤ b.start_date_local

instance : DecidableRel eventLe :=
  fun a b => inferInstanceAs (Decidable (a.start_date_local ≤ b.start_date_local))

instance : IsTotal Event eventLe :=
  ⟨fun a b => le_total a.start_date_local b.start_date_local⟩

instance : IsTrans Event eventLe :=
  ⟨fun _ _ _ h h2 => le_trans h h2⟩

/-- The date_range object of the calendar tools (dates rendered as the
Python strftime strings under the day-number model). -/
def dateRangeJson (oldest newest : Int) : JVal :=
  JVal.obj [("oldest", JVal.str (isoDate oldest)), ("newest", JVal.str (isoDate newest))]

/-- The summary object of get_calendar_events (events.py lines 115-129). -/
def calendarSummaryJson (events : List Event) : JVal :=
  JVal.obj
    [("total_events", JVal.int events.length),
     ("by_category",
       JVal.obj
         [("workouts", JVal.int (events.countP (fun e => e.category = some "WORKOUT"))),
          ("races", JVal.int (events.countP (fun e => e.category = some "RACE"))),
          ("notes", JVal.int (events.countP (fun e => e.category = some "NOTE"))),
          ("goals", JVal.int (events.countP (fun e => e.category = some "GOAL")))])]

/-- Tool get_calendar_events (events.py lines 13-145). The context and
the remote call result are explicit inputs; the second component is the
ordered log of client actions. -/
def get_calendar_events (days_ahead days_back today : Int)
    (ctx : Option ICUConfig)
    (fetch : Int → Int → ClientResult (List Event)) :
    ToolOutcome × List ClientCall :=
  match ctx with
  | none => (ToolOutcome.raised "AssertionError", [])
  | some _ =>
    let oldest := today - days_back
    let newest := today + days_ahead
    let log := [ClientCall.openClient, ClientCall.getEvents oldest newest]
    match fetch oldest newest with
    | ClientResult.icuError m =>
      (ToolOutcome.returned (buildErrorResponse m "api_error"), log)
    | ClientResult.exn m =>
      (ToolOutcome.returned
        (buildErrorResponse ("Unexpected error: " ++ m) "internal_error"), log)
    | ClientResult.ok events =>
      if events.isEmpty then
        (ToolOutcome.returned
          (buildResponse
            (JVal.obj
              [("events", JVal.arr []), ("count", JVal.int 0),
               ("date_range", dateRangeJson oldest newest)])
            (some (JVal.obj
              [("message",
                JVal.str "No events found on your calendar for the specified period")]))
            none none), log)
      else
        let sorted := events.insertionSort eventLe
        match buildEventsByDate today sorted with
        | Except.error m =>
          (ToolOutcome.returned
            (buildErrorResponse ("Unexpected error: " ++ m) "internal_error"), log)
        | Except.ok groups =>
          (ToolOutcome.returned
            (buildResponse
              (JVal.obj
                [("events_by_date",
                   JVal.obj (groups.map (fun g => (g.1, JVal.arr (g.2.map calItemJson))))),
                 ("date_range", dateRangeJson oldest newest),
                 ("summary", calendarSummaryJson sorted)])
              none (some "calendar_events") none), log)

/-- One workout entry of get_upcoming_workouts (events.py lines 206-234). -/
structure UpcomingItem where
  date : String
  relative_timing : String
  name : String
  type : Option String
  distance_meters : Option Int
  duration_seconds : Option Int
  training_load : Option Int
  intensity_factor : Option Int
  description : Option String

/-- Render an upcoming-workout item as the JSON object the tool emits. -/
def upcomingItemJson (it : UpcomingItem) : JVal :=
  JVal.obj
    ([("date", JVal.str it.date), ("relative_timing", JVal.str it.relative_timing),
      ("name", JVal.str it.name)]
      ++ optStrField "type" it.type
      ++ optIntField "distance_meters" it.distance_meters
      ++ optIntField "duration_seconds" it.duration_seconds
      ++ optIntField "training_load" it.training_load
      ++ optIntField "intensity_factor" it.intensity_factor
      ++ optStrField "description" it.description)

/-- Build one upcoming-workout item (events.py lines 192-234 loop body). -/
def mkUpcomingItem (today : Int) (e : Event) : Except String UpcomingItem :=
  let date := dateKey e.start_date_local
  match parseDate date with
  | none => Except.error ("time data " ++ date ++ " does not match format %Y-%m-%d")
  | some dateObj =>
    Except.ok
      { date := date
        relative_timing := upcomingRelativeTiming dateObj today
        name := orElseStr e.name "Workout"
        type := keepStr e.type
        distance_meters := keepInt (pyOrInt e.distance e.distance_target)
        duration_seconds := keepInt e.moving_time
        training_load := keepInt e.icu_training_load
        intensity_factor := keepInt e.icu_intensity
        description := (keepStr e.description).map String.trim }

/-- Python list slicing xs[:limit] for a possibly negative Int limit: the
first limit items when the limit is nonnegative, all but the last -limit
items when it is negative. -/
def pySlice {α : Type} (limit : Int) (xs : List α) : List α :=
  if 0 ≤ limit then xs.take limit.toNat
  else xs.take (xs.length - (-limit).toNat)

/-- The fetch window of get_upcoming_workouts (events.py lines 167-170):
today through today plus 30 days, computed before the limit is ever
consulted. -/
def upcomingFetchWindow (today : Int) : Int × Int :=
  (today, today + 30)

/-- The total planned load of the truncated workout list (events.py line
237): each item contributes icu_training_load or 0. -/
def totalPlannedLoad (ws : List Event) : Int :=
  (ws.map (fun w => w.icu_training_load.getD 0)).sum

/-- Tool get_upcoming_workouts (events.py lines 148-253). -/
def get_upcoming_workouts (limit : Int) (today : Int)
    (ctx : Option ICUConfig)
    (fetch : Int → Int → ClientResult (List Event)) :
    ToolOutcome × List ClientCall :=
  match ctx with
  | none => (ToolOutcome.raised "AssertionError", [])
  | some _ =>
    let oldest := (upcomingFetchWindow today).1
    let newest := (upcomingFetchWindow today).2
    let log := [ClientCall.openClient, ClientCall.getEvents oldest newest]
    match fetch oldest newest with
    | ClientResult.icuError m =>
      (ToolOutcome.returned (buildErrorResponse m "api_error"), log)
    | ClientResult.exn m =>
      (ToolOutcome.returned
        (buildErrorResponse ("Unexpected error: " ++ m) "internal_error"), log)
    | ClientResult.ok events =>
      let workouts := events.filter (fun e => e.category = some "WORKOUT")
      if workouts.isEmpty then
        (ToolOutcome.returned
          (buildResponse
            (JVal.obj [("workouts", JVal.arr []), ("count", JVal.int 0)])
            (some (JVal.obj
              [("message", JVal.str "No workouts planned on your calendar")]))
            none none), log)
      else
        let truncated := pySlice limit (workouts.insertionSort eventLe)
        match truncated.mapM (mkUpcomingItem today) with
        | Except.error m =>
          (ToolOutcome.returned
            (buildErrorResponse ("Unexpected error: " ++ m) "internal_error"), log)
        | Except.ok items =>
          let total_load := totalPlannedLoad truncated
          (ToolOutcome.returned
            (buildResponse
              (JVal.obj
                [("workouts", JVal.arr (items.map upcomingItemJson)),
                 ("count", JVal.int items.length),
                 ("total_planned_load",
                   if 0 < total_load then JVal.int total_load else JVal.null)])
              none (some "upcoming_workouts") none), log)

/-! ## Workout-library tools (workout_library.py)

Error-message strings follow the source except that the quote punctuation
of the Python messages is omitted.
-/

/-- Outcome of json.loads on the JSON-text parameter of the bulk tools: a
parse failure (JSONDecodeError) or the parsed value. A Python-falsy
(absent or empty) workouts argument is modelled as absence of a JParse. -/
inductive JParse where
  | malformed (msg : String)
  | value (v : JVal)

/-- Python `k in d` on a JSON object. -/
def hasKey (w : List (String × JVal)) (k : String) : Bool :=
  w.any (fun p => p.1 = k)

/-- Python `d[k] = v` on a JSON object: replace in place when the key
exists, append otherwise. -/
def setKey (w : List (String × JVal)) (k : String) (v : JVal) : List (String × JVal) :=
  match w with
  | [] => [(k, v)]
  | (k0, v0) :: rest =>
    if k0 = k then (k0, v) :: rest else (k0, v0) :: setKey rest k v

/-- The mandatory workout fields, in the order the source checks them
(workout_library.py line 389). -/
def requiredFields : List String :=
  ["name", "type", "moving_time", "day"]

/-- The defaults applied to optional workout fields, in application order
(workout_library.py lines 397-407). -/
def workoutDefaults : List (String × JVal) :=
  [("indoor", JVal.bool false), ("attachments", JVal.arr []),
   ("joules", JVal.int 0), ("joules_above_ftp", JVal.int 0),
   ("sub_type", JVal.str "NONE")]

/-- Apply the five documented defaults to one workout object: each absent
key is appended with its default value. -/
def applyDefaults (w : List (String × JVal)) : List (String × JVal) :=
  workoutDefaults.foldl (fun w p => if hasKey w p.1 then w else setKey w p.1 p.2) w

/-- The first missing mandatory field of one workout object, fields
scanned in the documented order. -/
def firstMissingField (w : List (String × JVal)) : Option String :=
  requiredFields.find? (fun f => !hasKey w f)

/-- Validation loop of create_training_plan (workout_library.py lines
380-407): each element must be an object with the mandatory fields; the
first offending index and field aborts; otherwise defaults are applied. -/
def validateWorkoutsCreateAux (i : Nat) (xs : List JVal) :
    Except String (List (List (String × JVal))) :=
  match xs with
  | [] => Except.ok []
  | x :: rest =>
    match x with
    | JVal.obj w =>
      match firstMissingField w with
      | some f =>
        Except.error ("Workout at index " ++ toString i ++ " missing required field: " ++ f)
      | none => do
        let restOk ← validateWorkoutsCreateAux (i + 1) rest
        pure (applyDefaults w :: restOk)
    | _ => Except.error ("Workout at index " ++ toString i ++ " must be an object")

/-- Validation loop of add_workouts_to_plan (workout_library.py lines
668-697): as for creation, but each workout also receives the folder id
before the defaults. -/
def validateWorkoutsAddAux (folder_id : Int) (i : Nat) (xs : List JVal) :
    Except String (List (List (String × JVal))) :=
  match xs with
  | [] => Except.ok []
  | x :: rest =>
    match x with
    | JVal.obj w =>
      match firstMissingField w with
      | some f =>
        Except.error ("Workout at index " ++ toString i ++ " missing required field: " ++ f)
      | none => do
        let restOk ← validateWorkoutsAddAux folder_id (i + 1) rest
        pure (applyDefaults (setKey w "folder_id" (JVal.int folder_id)) :: restOk)
    | _ => Except.error ("Workout at index " ++ toString i ++ " must be an object")

/-- Days until the auto-selected Monday (workout_library.py lines
414-418): (7 - weekday) mod 7, bumped to 7 when today is Monday. -/
def daysUntilMonday (w : Int) : Int :=
  let d := (7 - w) % 7
  if d = 0 then 7 else d

/-- The auto-computed start date of a PLAN with no explicit start date
(workout_library.py lines 414-420). -/
def autoStartDate (today : Int) : Int :=
  today + daysUntilMonday (weekday today)

/-- Append a string key only when the optional value is Python-truthy. -/
def strFieldIfTruthy (k : String) (a : Option String) : List (String × JVal) :=
  match a with
  | some s => if s = "" then [] else [(k, JVal.str s)]
  | none => []

/-- Append an integer key only when the optional value is Python-truthy. -/
def intFieldIfTruthy (k : String) (a : Option Int) : List (String × JVal) :=
  match a with
  | some n => if n = 0 then [] else [(k, JVal.int n)]
  | none => []

/-- The folder payload sent to the create-folder endpoint
(workout_library.py lines 424-435). -/
def folderDataJson (name plan_type visibility : String)
    (description start_date : Option String) : JVal :=
  JVal.obj
    ([("name", JVal.str name), ("type", JVal.str plan_type),
      ("visibility", JVal.str visibility)]
      ++ strFieldIfTruthy "description" description
      ++ strFieldIfTruthy "start_date_local" start_date)

/-- Response entry for one created workout (workout_library.py lines
467-483 and 705-721). -/
def createdWorkoutJson (w : Workout) : JVal :=
  JVal.obj
    ([("id", JVal.int w.id), ("name", jStrOpt w.name), ("type", jStrOpt w.type)]
      ++ strFieldIfTruthy "description" w.description
      ++ intFieldIfTruthy "duration_seconds" w.moving_time
      ++ intFieldIfTruthy "training_load" w.icu_training_load
      ++ intFieldIfTruthy "folder_id" w.folder_id)

/-- Sum of moving_time or 0 over created workouts. -/
def totalDuration (ws : List Workout) : Int :=
  (ws.map (fun w => w.moving_time.getD 0)).sum

/-- Sum of icu_training_load or 0 over created workouts. -/
def totalLoad (ws : List Workout) : Int :=
  (ws.map (fun w => w.icu_training_load.getD 0)).sum

/-- Caller-supplied arguments of create_training_plan, with the JSON-text
workouts parameter represented by its parse outcome. -/
structure CreatePlanArgs where
  name : String
  plan_type : String := "PLAN"
  description : Option String := none
  start_date : Option String := none
  visibility : String := "PRIVATE"
  workouts : Option JParse := none

/-- Parse-and-validate stage for the optional workouts argument of
create_training_plan (workout_library.py lines 355-407); any error is a
validation error returned before any network activity. -/
def parseWorkoutsCreate (workouts : Option JParse) :
    Except String (Option (List (List (String × JVal)))) :=
  match workouts with
  | none => Except.ok none
  | some (JParse.malformed m) => Except.error ("Invalid JSON format: " ++ m)
  | some (JParse.value v) =>
    match v with
    | JVal.arr xs =>
      if xs.isEmpty then Except.error "workouts array cannot be empty"
      else (validateWorkoutsCreateAux 0 xs).map some
    | _ => Except.error "workouts must be a JSON array"

/-- Tool create_training_plan (workout_library.py lines 221-536). The
createResp and bulkResp oracles give the remote result of the folder
creation and of the bulk workout creation. -/
def create_training_plan (args : CreatePlanArgs) (today : Int)
    (ctx : Option ICUConfig)
    (createResp : JVal → ClientResult Folder)
    (bulkResp : List (List (String × JVal)) → ClientResult (List Workout)) :
    ToolOutcome × List ClientCall :=
  match ctx with
  | none => (ToolOutcome.raised "AssertionError", [])
  | some _ =>
    if args.plan_type ≠ "FOLDER" ∧ args.plan_type ≠ "PLAN" then
      (ToolOutcome.returned
        (buildErrorResponse "plan_type must be either FOLDER or PLAN" "validation_error"), [])
    else if args.visibility ≠ "PRIVATE" ∧ args.visibility ≠ "PUBLIC" then
      (ToolOutcome.returned
        (buildErrorResponse "visibility must be either PRIVATE or PUBLIC" "validation_error"), [])
    else
      match parseWorkoutsCreate args.workouts with
      | Except.error m =>
        (ToolOutcome.returned (buildErrorResponse m "validation_error"), [])
      | Except.ok workouts_list =>
        let auto_set_date := args.plan_type = "PLAN" ∧ ¬ truthyStr args.start_date
        let start_date :=
          if args.plan_type = "PLAN" ∧ ¬ truthyStr args.start_date then
            some (isoDate (autoStartDate today))
          else args.start_date
        let folder_data :=
          folderDataJson args.name args.plan_type args.visibility args.description start_date
        let log1 := [ClientCall.openClient, ClientCall.createFolder folder_data]
        match createResp folder_data with
        | ClientResult.icuError m =>
          (ToolOutcome.returned (buildErrorResponse m "api_error"), log1)
        | ClientResult.exn m =>
          (ToolOutcome.returned
            (buildErrorResponse ("Unexpected error: " ++ m) "internal_error"), log1)
        | ClientResult.ok folder =>
          let base :=
            [("id", JVal.int folder.id), ("name", jStrOpt folder.name),
             ("type", jStrOpt folder.type), ("visibility", jStrOpt folder.visibility)]
              ++ strFieldIfTruthy "description" folder.description
              ++ strFieldIfTruthy "start_date" folder.start_date_local
              ++ intFieldIfTruthy "num_workouts" folder.num_workouts
          let analysis0 :=
            if args.plan_type = "PLAN" then
              [("type", JVal.str "training_plan"),
               ("message",
                 JVal.str ("Training plan " ++ args.name ++ " created successfully"))]
                ++ (match start_date with
                    | some sd =>
                      if sd = "" then []
                      else if auto_set_date then
                        [("schedule",
                          JVal.str ("Plan starts on " ++ sd ++ " (auto-set to next Monday)"))]
                      else [("schedule", JVal.str ("Plan starts on " ++ sd))]
                    | none => [])
            else
              [("type", JVal.str "workout_folder"),
               ("message",
                 JVal.str ("Workout folder " ++ args.name ++ " created successfully"))]
          match workouts_list with
          | none =>
            (ToolOutcome.returned
              (buildResponse (JVal.obj base) none (some "create_plan")
                (some (JVal.obj analysis0))), log1)
          | some ws =>
            let payload := ws.map (fun w => setKey w "folder_id" (JVal.int folder.id))
            let log2 := log1 ++ [ClientCall.bulkCreateWorkouts payload]
            match bulkResp payload with
            | ClientResult.icuError m =>
              (ToolOutcome.returned (buildErrorResponse m "api_error"), log2)
            | ClientResult.exn m =>
              (ToolOutcome.returned
                (buildErrorResponse ("Unexpected error: " ++ m) "internal_error"), log2)
            | ClientResult.ok created =>
              let summary :=
                JVal.obj
                  [("count", JVal.int created.length),
                   ("total_duration_seconds", JVal.int (totalDuration created)),
                   ("total_training_load", JVal.int (totalLoad created))]
              let result_data :=
                setKey
                  (setKey
                    (setKey base "workouts" (JVal.arr (created.map createdWorkoutJson)))
                    "num_workouts" (JVal.int created.length))
                  "summary" summary
              let analysis :=
                if created.isEmpty then analysis0
                else
                  analysis0
                    ++ [("workouts_created", JVal.int created.length),
                        ("total_duration_seconds", JVal.int (totalDuration created)),
                        ("total_training_load", JVal.int (totalLoad created))]
              (ToolOutcome.returned
                (buildResponse (JVal.obj result_data) none (some "create_plan")
                  (some (JVal.obj analysis))), log2)

/-- Parse-and-validate stage of add_workouts_to_plan (workout_library.py
lines 641-697). -/
def parseWorkoutsAdd (folder_id : Int) (workouts : JParse) :
    Except String (List (List (String × JVal))) :=
  match workouts with
  | JParse.malformed m => Except.error ("Invalid JSON format: " ++ m)
  | JParse.value v =>
    match v with
    | JVal.arr xs =>
      if xs.isEmpty then Except.error "workouts array cannot be empty"
      else validateWorkoutsAddAux folder_id 0 xs
    | _ => Except.error "workouts must be a JSON array"

/-- Tool add_workouts_to_plan (workout_library.py lines 539-754). -/
def add_workouts_to_plan (folder_id : Int) (workouts : JParse)
    (ctx : Option ICUConfig)
    (bulkResp : List (List (String × JVal)) → ClientResult (List Workout)) :
    ToolOutcome × List ClientCall :=
  match ctx with
  | none => (ToolOutcome.raised "AssertionError", [])
  | some _ =>
    match parseWorkoutsAdd folder_id workouts with
    | Except.error m =>
      (ToolOutcome.returned (buildErrorResponse m "validation_error"), [])
    | Except.ok payload =>
      let log := [ClientCall.openClient, ClientCall.bulkCreateWorkouts payload]
      match bulkResp payload with
      | ClientResult.icuError m =>
        (ToolOutcome.returned (buildErrorResponse m "api_error"), log)
      | ClientResult.exn m =>
        (ToolOutcome.returned
          (buildErrorResponse ("Unexpected error: " ++ m) "internal_error"), log)
      | ClientResult.ok created =>
        let analysis :=
          JVal.obj
            [("workouts_created", JVal.int created.length),
             ("total_duration_seconds", JVal.int (totalDuration created)),
             ("total_training_load", JVal.int (totalLoad created)),
             ("folder_id", JVal.int folder_id)]
        let result_data :=
          JVal.obj
            [("workouts", JVal.arr (created.map createdWorkoutJson)),
             ("summary",
               JVal.obj
                 [("count", JVal.int created.length),
                  ("total_duration_seconds", JVal.int (totalDuration created)),
                  ("total_training_load", JVal.int (totalLoad created))])]
        (ToolOutcome.returned
          (buildResponse result_data none (some "add_workouts_to_plan")
            (some analysis)), log)

/-- Python str() of an optional string, as interpolated in the deletion
message (None renders as the text None). -/
def pyStrOpt : Option String → String
  | none => "None"
  | some s => s

/-- Tool delete_training_plan (workout_library.py lines 757-822): fetch
the folder list, linearly scan for the id, report not_found when absent,
and only then issue the delete. -/
def delete_training_plan (folder_id : Int) (ctx : Option ICUConfig)
    (foldersResp : ClientResult (List Folder))
    (deleteResp : Int → ClientResult Unit) :
    ToolOutcome × List ClientCall :=
  match ctx with
  | none => (ToolOutcome.raised "AssertionError", [])
  | some _ =>
    let log1 := [ClientCall.openClient, ClientCall.getWorkoutFolders]
    match foldersResp with
    | ClientResult.icuError m =>
      (ToolOutcome.returned (buildErrorResponse m "api_error"), log1)
    | ClientResult.exn m =>
      (ToolOutcome.returned
        (buildErrorResponse ("Unexpected error: " ++ m) "internal_error"), log1)
    | ClientResult.ok folders =>
      match folders.find? (fun f => f.id = folder_id) with
      | none =>
        (ToolOutcome.returned
          (buildErrorResponse
            ("Folder/plan with ID " ++ toString folder_id ++ " not found")
            "not_found"), log1)
      | some folder_to_delete =>
        let folder_name := folder_to_delete.name
        let folder_type := orElseStr folder_to_delete.type "FOLDER"
        let num_workouts := folder_to_delete.num_workouts.getD 0
        let log2 := log1 ++ [ClientCall.deleteFolder folder_id]
        match deleteResp folder_id with
        | ClientResult.icuError m =>
          (ToolOutcome.returned (buildErrorResponse m "api_error"), log2)
        | ClientResult.exn m =>
          (ToolOutcome.returned
            (buildErrorResponse ("Unexpected error: " ++ m) "internal_error"), log2)
        | ClientResult.ok _ =>
          (ToolOutcome.returned
            (buildResponse
              (JVal.obj
                [("deleted", JVal.bool true), ("folder_id", JVal.int folder_id),
                 ("name", jStrOpt folder_name), ("type", JVal.str folder_type)])
              none (some "delete_plan")
              (some (JVal.obj
                [("message",
                  JVal.str
                    ("Successfully deleted " ++ folder_type.toLower ++ " "
                      ++ pyStrOpt folder_name)),
                 ("workouts_deleted", JVal.int num_workouts)]))), log2)

/-! ## Client-side truncation (client.py)

The client methods below return the deserialized server list truncated by
Python slicing; the surrounding HTTP plumbing is represented by the
ClientResult the request produced.
-/

namespace ICUClient

/-- client.py get_activities (lines 145-176): server list, then
activities[:limit]. -/
def get_activities (resp : ClientResult (List ActivitySummary)) (limit : Int) :
    ClientResult (List ActivitySummary) :=
  match resp with
  | ClientResult.ok xs => ClientResult.ok (pySlice limit xs)
  | ClientResult.icuError m => ClientResult.icuError m
  | ClientResult.exn m => ClientResult.exn m

/-- client.py search_activities (lines 192-217): results[:limit]. -/
def search_activities (resp : ClientResult (List ActivitySearchResult)) (limit : Int) :
    ClientResult (List ActivitySearchResult) :=
  match resp with
  | ClientResult.ok xs => ClientResult.ok (pySlice limit xs)
  | ClientResult.icuError m => ClientResult.icuError m
  | ClientResult.exn m => ClientResult.exn m

/-- client.py search_intervals (lines 802-836): raw JSON rows, then
results[:limit]. -/
def search_intervals (resp : ClientResult (List JVal)) (limit : Int) :
    ClientResult (List JVal) :=
  match resp with
  | ClientResult.ok xs => ClientResult.ok (pySlice limit xs)
  | ClientResult.icuError m => ClientResult.icuError m
  | ClientResult.exn m => ClientResult.exn m

end ICUClient

/-! ## Theorems -/

/-- Helper: a days_ago label is never the tomorrow label (length 10 or
more versus 8). -/
theorem append_days_ago_ne_tomorrow (x : String) : x ++ "_days_ago" ≠ "tomorrow" := by
  intro h
  have h2 := congrArg String.length h
  rw [String.length_append] at h2
  have e1 : ("_days_ago" : String).length = 9 := rfl
  have e2 : ("tomorrow" : String).length = 8 := rfl
  omega

/-- Helper: an in_n_days label is never the tomorrow label (it starts
with the letter i, not t). -/
theorem in_days_ne_tomorrow (x : String) : "in_" ++ x ++ "_days" ≠ "tomorrow" := by
  intro h
  have h2 : ("in_" ++ x ++ "_days").data = "tomorrow".data := congrArg String.data h
  rw [String.data_append, String.data_append] at h2
  have e1 : ("in_" : String).data = ['i', 'n', '_'] := rfl
  rw [e1] at h2
  simp only [List.cons_append, List.nil_append] at h2
  injection h2 with h3 h4
  exact absurd h3 (by decide)

/-- C8: the calendar tool labels an event dated today as today, a date n
days strictly before as n_days_ago and a date n days strictly after as
in_n_days; the upcoming-workouts tool labels today as today, exactly one
day ahead as tomorrow and later dates as in_n_days; and the calendar
tool never emits the tomorrow label. -/
theorem relative_timing_labels_spec (d t : Int) :
    (d = t → relativeTiming d t = "today")
      ∧ (d < t → relativeTiming d t = toString (t - d) ++ "_days_ago")
      ∧ (t < d → relativeTiming d t = "in_" ++ toString (d - t) ++ "_days")
      ∧ (d = t → upcomingRelativeTiming d t = "today")
      ∧ (d = t + 1 → upcomingRelativeTiming d t = "tomorrow")
      ∧ (t + 1 < d → upcomingRelativeTiming d t = "in_" ++ toString (d - t) ++ "_days")
      ∧ relativeTiming d t ≠ "tomorrow" := by
  unfold relativeTiming upcomingRelativeTiming
  refine ⟨?_, ?_, ?_, ?_, ?_, ?_, ?_⟩
  · intro h; rw [if_pos h]
  · intro h; rw [if_neg (by omega), if_pos h]
  · intro h; rw [if_neg (by omega), if_neg (by omega)]
  · intro h; rw [if_pos h]
  · intro h; rw [if_neg (by omega), if_pos h]
  · intro h; rw [if_neg (by omega), if_neg (by omega)]
  · split
    · decide
    · split
      · exact append_days_ago_ne_tomorrow _
      · exact in_days_ne_tomorrow _

/-- Witness for C8 at day numbers around 5: the three calendar labels,
the tomorrow special case, and the absence of tomorrow from the calendar
labels, all at concrete dates. -/
theorem relative_timing_labels_spec_witness :
    relativeTiming 5 5 = "today"
      ∧ relativeTiming 2 5 = toString (5 - 2 : Int) ++ "_days_ago"
      ∧ relativeTiming 9 5 = "in_" ++ toString (9 - 5 : Int) ++ "_days"
      ∧ upcomingRelativeTiming 6 5 = "tomorrow"
      ∧ upcomingRelativeTiming 9 5 = "in_" ++ toString (9 - 5 : Int) ++ "_days"
      ∧ relativeTiming 6 5 ≠ "tomorrow" :=
  ⟨(relative_timing_labels_spec 5 5).1 rfl,
   (relative_timing_labels_spec 2 5).2.1 (by decide),
   (relative_timing_labels_spec 9 5).2.2.1 (by decide),
   (relative_timing_labels_spec 6 5).2.2.2.2.1 (by decide),
   (relative_timing_labels_spec 9 5).2.2.2.2.2.1 (by decide),
   (relative_timing_labels_spec 6 5).2.2.2.2.2.2⟩

/-- C1 counterexample: with a missing context the calendar tool raises
an AssertionError to its caller instead of returning an envelope, so the
claim fails for the missing-context input it explicitly includes. -/
theorem get_calendar_events_none_context_raises :
    (get_calendar_events 7 0 19723 none (fun _ _ => ClientResult.ok [])).1
      = ToolOutcome.raised "AssertionError" := rfl

/-- C1 (amended): for every input whose context is provided, no tool
ever raises: each of the five tools returns some envelope for every
oracle behavior, and a client error or an arbitrary exception in the
remote call is returned as the corresponding error envelope. -/
theorem tool_boundary_returns_envelope_with_context (da db t limit fid : Int)
    (args : CreatePlanArgs) (w : JParse) (cfg : ICUConfig)
    (fetch : Int → Int → ClientResult (List Event))
    (cR : JVal → ClientResult Folder)
    (bR : List (List (String × JVal)) → ClientResult (List Workout))
    (fR : ClientResult (List Folder)) (dR : Int → ClientResult Unit) :
    (∃ v, (get_calendar_events da db t (some cfg) fetch).1 = ToolOutcome.returned v)
      ∧ (∃ v, (get_upcoming_workouts limit t (some cfg) fetch).1 = ToolOutcome.returned v)
      ∧ (∃ v, (create_training_plan args t (some cfg) cR bR).1 = ToolOutcome.returned v)
      ∧ (∃ v, (add_workouts_to_plan fid w (some cfg) bR).1 = ToolOutcome.returned v)
      ∧ (∃ v, (delete_training_plan fid (some cfg) fR dR).1 = ToolOutcome.returned v)
      ∧ (∀ m, (get_calendar_events da db t (some cfg)
          (fun _ _ => ClientResult.icuError m)).1
            = ToolOutcome.returned (buildErrorResponse m "api_error"))
      ∧ (∀ m, (get_calendar_events da db t (some cfg)
          (fun _ _ => ClientResult.exn m)).1
            = ToolOutcome.returned
                (buildErrorResponse ("Unexpected error: " ++ m) "internal_error"))
      ∧ (∀ m, (delete_training_plan fid (some cfg) (ClientResult.icuError m) dR).1
          = ToolOutcome.returned (buildErrorResponse m "api_error")) := by
  refine ⟨?_, ?_, ?_, ?_, ?_, ?_, ?_, ?_⟩
  · unfold get_calendar_events
    dsimp only
    repeat first | exact ⟨_, rfl⟩ | split
  · unfold get_upcoming_workouts
    dsimp only
    repeat first | exact ⟨_, rfl⟩ | split
  · unfold create_training_plan
    dsimp only
    repeat first | exact ⟨_, rfl⟩ | split
  · unfold add_workouts_to_plan
    dsimp only
    repeat first | exact ⟨_, rfl⟩ | split
  · unfold delete_training_plan
    dsimp only
    repeat first | exact ⟨_, rfl⟩ | split
  · intro m; rfl
  · intro m; rfl
  · intro m; rfl

/-- C2: with plan type PLAN and no start date, the auto-computed start
date is a Monday strictly after today, at most seven days out, equal to
today plus seven when today is a Monday and minimal among later Mondays
otherwise; and the created-folder payload carries exactly that date. -/
theorem auto_start_date_is_next_monday (nm : String) (desc : Option String)
    (today : Int) (cfg : ICUConfig)
    (createResp : JVal → ClientResult Folder)
    (bulkResp : List (List (String × JVal)) → ClientResult (List Workout)) :
    weekday (autoStartDate today) = 0
      ∧ today < autoStartDate today
      ∧ autoStartDate today ≤ today + 7
      ∧ (weekday today = 0 → autoStartDate today = today + 7)
      ∧ (∀ m : Int, today < m → weekday m = 0 → autoStartDate today ≤ m)
      ∧ (create_training_plan
            { name := nm, plan_type := "PLAN", description := desc, start_date := none,
              visibility := "PRIVATE", workouts := none }
            today (some cfg) createResp bulkResp).2
          = [ClientCall.openClient,
             ClientCall.createFolder
               (folderDataJson nm "PLAN" "PRIVATE" desc
                 (some (isoDate (autoStartDate today))))] := by
  refine ⟨?_, ?_, ?_, ?_, ?_, ?_⟩
  · unfold autoStartDate daysUntilMonday weekday
    dsimp only
    split <;> omega
  · unfold autoStartDate daysUntilMonday weekday
    dsimp only
    split <;> omega
  · unfold autoStartDate daysUntilMonday weekday
    dsimp only
    split <;> omega
  · unfold autoStartDate daysUntilMonday weekday
    dsimp only
    intro h; split <;> omega
  · unfold autoStartDate daysUntilMonday weekday
    dsimp only
    intro m h1 h2; split <;> omega
  · unfold create_training_plan
    simp only [parseWorkoutsCreate, truthyStr]
    norm_num
    cases h : createResp (folderDataJson nm "PLAN" "PRIVATE" desc
        (some (isoDate (autoStartDate today)))) <;> simp [h]

/-- Witness for C2: day 19723 is the Monday 2024-01-01, whose
auto-computed start date is exactly one week later; day 19725 is the
Wednesday 2024-01-03, whose start date is the Monday five days later. -/
theorem auto_start_date_is_next_monday_witness :
    weekday (autoStartDate 19723) = 0
      ∧ autoStartDate 19723 = 19723 + 7
      ∧ weekday (autoStartDate 19725) = 0
      ∧ autoStartDate 19725 ≤ 19730 :=
  ⟨(auto_start_date_is_next_monday "p" none 19723 ⟨"a", "k"⟩
      (fun _ => ClientResult.exn "x") (fun _ => ClientResult.exn "x")).1,
   (auto_start_date_is_next_monday "p" none 19723 ⟨"a", "k"⟩
      (fun _ => ClientResult.exn "x") (fun _ => ClientResult.exn "x")).2.2.2.1 (by decide),
   (auto_start_date_is_next_monday "p" none 19725 ⟨"a", "k"⟩
      (fun _ => ClientResult.exn "x") (fun _ => ClientResult.exn "x")).1,
   (auto_start_date_is_next_monday "p" none 19725 ⟨"a", "k"⟩
      (fun _ => ClientResult.exn "x") (fun _ => ClientResult.exn "x")).2.2.2.2.1
     19730 (by decide) (by decide)⟩

/-- C5: an invalid plan type or an invalid visibility makes
create_training_plan return a validation_error envelope with an empty
client-action log, so no client is opened and no request issued. -/
theorem create_training_plan_invalid_enums_validation_error
    (args : CreatePlanArgs) (today : Int) (cfg : ICUConfig)
    (createResp : JVal → ClientResult Folder)
    (bulkResp : List (List (String × JVal)) → ClientResult (List Workout))
    (h : (args.plan_type ≠ "FOLDER" ∧ args.plan_type ≠ "PLAN")
        ∨ (args.visibility ≠ "PRIVATE" ∧ args.visibility ≠ "PUBLIC")) :
    ∃ message,
      create_training_plan args today (some cfg) createResp bulkResp
        = (ToolOutcome.returned (buildErrorResponse message "validation_error"), []) := by
  by_cases h1 : args.plan_type ≠ "FOLDER" ∧ args.plan_type ≠ "PLAN"
  · exact ⟨_, by unfold create_training_plan; rw [if_pos h1]⟩
  · have h2 : args.visibility ≠ "PRIVATE" ∧ args.visibility ≠ "PUBLIC" := by tauto
    exact ⟨_, by unfold create_training_plan; rw [if_neg h1, if_pos h2]⟩

/-- Witness for C5 at the invalid plan type WEEK. -/
theorem create_training_plan_invalid_enums_validation_error_witness :
    ∃ message,
      create_training_plan
          { name := "My Plan", plan_type := "WEEK", description := none,
            start_date := none, visibility := "PRIVATE", workouts := none }
          0 (some ⟨"a", "k"⟩) (fun _ => ClientResult.exn "x") (fun _ => ClientResult.exn "x")
        = (ToolOutcome.returned (buildErrorResponse message "validation_error"), []) :=
  create_training_plan_invalid_enums_validation_error _ 0 _ _ _
    (Or.inl ⟨by decide, by decide⟩)

/-- Helper: for a nonnegative limit, Python slicing is List.take. -/
theorem pySlice_nonneg {α : Type} (limit : Int) (h : 0 ≤ limit) (xs : List α) :
    pySlice limit xs = xs.take limit.toNat := by
  unfold pySlice
  rw [if_pos h]

/-- Helper: for a nonnegative limit, the sliced length is at most the limit. -/
theorem pySlice_length_le {α : Type} (limit : Int) (h : 0 ≤ limit) (xs : List α) :
    ((pySlice limit xs).length : Int) ≤ limit := by
  rw [pySlice_nonneg limit h]
  have h1 : (xs.take limit.toNat).length ≤ limit.toNat := List.length_take_le _ _
  omega

/-- Helper: a successful Except mapM preserves the list length. -/
theorem mapM_except_ok_length {α β ε : Type} (f : α → Except ε β) :
    ∀ (xs : List α) (ys : List β), xs.mapM f = Except.ok ys → ys.length = xs.length := by
  intro xs
  induction xs with
  | nil =>
    intro ys h
    simp only [List.mapM_nil] at h
    cases h
    rfl
  | cons a l ih =>
    intro ys h
    rw [List.mapM_cons] at h
    cases hfa : f a with
    | error e => rw [hfa] at h; simp [Bind.bind, Except.bind] at h
    | ok b =>
      rw [hfa] at h
      cases hml : l.mapM f with
      | error e => rw [hml] at h; simp [Except.bind, Bind.bind] at h
      | ok bs =>
        rw [hml] at h
        simp [Except.bind, Bind.bind, Pure.pure, Except.pure] at h
        subst h
        simp [ih bs hml]

/-- C4: deleting a folder id absent from the fetched list returns a
not_found envelope and the client log shows no delete call; a present id
is found by the linear scan, the delete is logged only after the folder
fetch, and a successful delete returns the envelope with deleted true
and the name and type recovered from the matched folder. -/
theorem delete_training_plan_lookup_spec (fid : Int) (cfg : ICUConfig)
    (folders : List Folder) (dR : Int → ClientResult Unit) :
    (folders.find? (fun f => f.id = fid) = none →
      ((∀ f ∈ folders, f.id ≠ fid)
        ∧ delete_training_plan fid (some cfg) (ClientResult.ok folders) dR
          = (ToolOutcome.returned
              (buildErrorResponse
                ("Folder/plan with ID " ++ toString fid ++ " not found") "not_found"),
             [ClientCall.openClient, ClientCall.getWorkoutFolders])))
      ∧ (∀ fl, folders.find? (fun f => f.id = fid) = some fl →
          ((delete_training_plan fid (some cfg) (ClientResult.ok folders) dR).2
              = [ClientCall.openClient, ClientCall.getWorkoutFolders,
                 ClientCall.deleteFolder fid]
            ∧ fl ∈ folders ∧ fl.id = fid
            ∧ (dR fid = ClientResult.ok () →
                (delete_training_plan fid (some cfg) (ClientResult.ok folders) dR).1
                  = ToolOutcome.returned
                      (buildResponse
                        (JVal.obj
                          [("deleted", JVal.bool true), ("folder_id", JVal.int fid),
                           ("name", jStrOpt fl.name),
                           ("type", JVal.str (orElseStr fl.type "FOLDER"))])
                        none (some "delete_plan")
                        (some (JVal.obj
                          [("message",
                            JVal.str ("Successfully deleted "
                              ++ (orElseStr fl.type "FOLDER").toLower ++ " "
                              ++ pyStrOpt fl.name)),
                           ("workouts_deleted", JVal.int (fl.num_workouts.getD 0))])))))) := by
  constructor
  · intro h
    constructor
    · intro f hf
      have h2 := List.find?_eq_none.mp h f hf
      simpa using h2
    · unfold delete_training_plan
      dsimp only
      rw [h]
  · intro fl hfl
    refine ⟨?_, List.mem_of_find?_eq_some hfl, by simpa using List.find?_some hfl, ?_⟩
    · unfold delete_training_plan
      dsimp only
      rw [hfl]
      cases h2 : dR fid <;> simp
    · intro hdr
      unfold delete_training_plan
      dsimp only
      rw [hfl, hdr]

/-- Witness for C4: deleting id 5 from a one-folder list recovers the
folder name and type, and the log shows the delete after the fetch. -/
theorem delete_training_plan_lookup_spec_witness :
    (delete_training_plan 5 (some ⟨"a", "k"⟩)
        (ClientResult.ok [{ id := 5, type := some "PLAN", name := some "Base",
                            num_workouts := some 3 }])
        (fun _ => ClientResult.ok ())).2
      = [ClientCall.openClient, ClientCall.getWorkoutFolders, ClientCall.deleteFolder 5]
    ∧ (delete_training_plan 5 (some ⟨"a", "k"⟩)
        (ClientResult.ok [{ id := 5, type := some "PLAN", name := some "Base",
                            num_workouts := some 3 }])
        (fun _ => ClientResult.ok ())).1
      = ToolOutcome.returned
          (buildResponse
            (JVal.obj
              [("deleted", JVal.bool true), ("folder_id", JVal.int 5),
               ("name", jStrOpt (some "Base")), ("type", JVal.str (orElseStr (some "PLAN") "FOLDER"))])
            none (some "delete_plan")
            (some (JVal.obj
              [("message",
                JVal.str ("Successfully deleted " ++ (orElseStr (some "PLAN") "FOLDER").toLower
                  ++ " " ++ pyStrOpt (some "Base"))),
               ("workouts_deleted", JVal.int ((some (3 : Int)).getD 0))]))) :=
  ⟨((delete_training_plan_lookup_spec 5 ⟨"a", "k"⟩
      [{ id := 5, type := some "PLAN", name := some "Base", num_workouts := some 3 }]
      (fun _ => ClientResult.ok ())).2 _ rfl).1,
   ((delete_training_plan_lookup_spec 5 ⟨"a", "k"⟩
      [{ id := 5, type := some "PLAN", name := some "Base", num_workouts := some 3 }]
      (fun _ => ClientResult.ok ())).2 _ rfl).2.2.2 rfl⟩

/-- C6: the upcoming-workouts fetch window is today through today plus
30 days for every limit (the logged getEvents call does not depend on
the limit); the fetched events are filtered to category WORKOUT, sorted
ascending by start_date_local (a sorted permutation of the filtered
list), then truncated, and a nonnegative limit takes exactly the first
limit items. -/
theorem upcoming_workouts_window_and_pipeline (limit today : Int) (cfg : ICUConfig)
    (fetch : Int → Int → ClientResult (List Event))
    (events : List Event) (items : List UpcomingItem) :
    (get_upcoming_workouts limit today (some cfg) fetch).2
        = [ClientCall.openClient, ClientCall.getEvents today (today + 30)]
      ∧ upcomingFetchWindow today = (today, today + 30)
      ∧ List.Perm
          ((events.filter (fun e => e.category = some "WORKOUT")).insertionSort eventLe)
          (events.filter (fun e => e.category = some "WORKOUT"))
      ∧ List.Sorted eventLe
          ((events.filter (fun e => e.category = some "WORKOUT")).insertionSort eventLe)
      ∧ (0 ≤ limit →
          pySlice limit
              ((events.filter (fun e => e.category = some "WORKOUT")).insertionSort eventLe)
            = ((events.filter (fun e => e.category = some "WORKOUT")).insertionSort
                eventLe).take limit.toNat)
      ∧ ((events.filter (fun e => e.category = some "WORKOUT")) ≠ [] →
          (pySlice limit
              ((events.filter (fun e => e.category = some "WORKOUT")).insertionSort
                eventLe)).mapM (mkUpcomingItem today) = Except.ok items →
          (get_upcoming_workouts limit today (some cfg) (fun _ _ => ClientResult.ok events)).1
            = ToolOutcome.returned
                (buildResponse
                  (JVal.obj
                    [("workouts", JVal.arr (items.map upcomingItemJson)),
                     ("count", JVal.int items.length),
                     ("total_planned_load",
                       if 0 < totalPlannedLoad (pySlice limit
                           ((events.filter (fun e => e.category = some "WORKOUT")).insertionSort
                             eventLe))
                       then JVal.int (totalPlannedLoad (pySlice limit
                           ((events.filter (fun e => e.category = some "WORKOUT")).insertionSort
                             eventLe)))
                       else JVal.null)])
                  none (some "upcoming_workouts") none)) := by
  refine ⟨?_, rfl, List.perm_insertionSort _ _, List.sorted_insertionSort _ _,
    fun h => pySlice_nonneg limit h _, ?_⟩
  · unfold get_upcoming_workouts
    dsimp only
    repeat first | rfl | split
  · intro hne hmap
    unfold get_upcoming_workouts
    dsimp only
    rw [if_neg (by simpa using hne), hmap]

/-- Witness for C6: limit 3 and one workout event dated the day after
day 19723 (2024-01-01): the fetch window, the pipeline output and the
take form of the truncation, all concrete. -/
theorem upcoming_workouts_window_and_pipeline_witness :
    (get_upcoming_workouts 3 19723 (some ⟨"a", "k"⟩)
        (fun _ _ => ClientResult.ok
          [{ id := 1, start_date_local := "2024-01-02", category := some "WORKOUT",
             icu_training_load := some 50 }])).2
      = [ClientCall.openClient, ClientCall.getEvents 19723 (19723 + 30)]
    ∧ (get_upcoming_workouts 3 19723 (some ⟨"a", "k"⟩)
        (fun _ _ => ClientResult.ok
          [{ id := 1, start_date_local := "2024-01-02", category := some "WORKOUT",
             icu_training_load := some 50 }])).1
      = ToolOutcome.returned
          (buildResponse
            (JVal.obj
              [("workouts", JVal.arr
                ([({ date := "2024-01-02", relative_timing := "tomorrow", name := "Workout",
                     type := none, distance_meters := none, duration_seconds := none,
                     training_load := some 50, intensity_factor := none,
                     description := none } : UpcomingItem)].map upcomingItemJson)),
               ("count", JVal.int (1 : Nat)),
               ("total_planned_load",
                 if 0 < totalPlannedLoad (pySlice 3
                     (([({ id := 1, start_date_local := "2024-01-02",
                           category := some "WORKOUT",
                           icu_training_load := some 50 } : Event)].filter
                        (fun e => e.category = some "WORKOUT")).insertionSort eventLe))
                 then JVal.int (totalPlannedLoad (pySlice 3
                     (([({ id := 1, start_date_local := "2024-01-02",
                           category := some "WORKOUT",
                           icu_training_load := some 50 } : Event)].filter
                        (fun e => e.category = some "WORKOUT")).insertionSort eventLe)))
                 else JVal.null)])
            none (some "upcoming_workouts") none) :=
  ⟨(upcoming_workouts_window_and_pipeline 3 19723 ⟨"a", "k"⟩
      (fun _ _ => ClientResult.ok
        [{ id := 1, start_date_local := "2024-01-02", category := some "WORKOUT",
           icu_training_load := some 50 }])
      [{ id := 1, start_date_local := "2024-01-02", category := some "WORKOUT",
         icu_training_load := some 50 }] []).1,
   (upcoming_workouts_window_and_pipeline 3 19723 ⟨"a", "k"⟩
      (fun _ _ => ClientResult.ok
        [{ id := 1, start_date_local := "2024-01-02", category := some "WORKOUT",
           icu_training_load := some 50 }])
      [{ id := 1, start_date_local := "2024-01-02", category := some "WORKOUT",
         icu_training_load := some 50 }]
      [{ date := "2024-01-02", relative_timing := "tomorrow", name := "Workout",
         type := none, distance_meters := none, duration_seconds := none,
         training_load := some 50, intensity_factor := none,
         description := none }]).2.2.2.2.2 (by decide) rfl⟩

/-- C7 counterexample: with limit -1 and a two-element server list,
get_activities returns one activity, and one exceeds -1, so the returned
count is not bounded by the caller-supplied limit (Python slicing with a
negative limit drops items from the end instead of bounding the count). -/
theorem get_activities_negative_limit_exceeds_limit :
    ICUClient.get_activities
        (ClientResult.ok [{ id := "a1" }, { id := "a2" }]) (-1)
      = ClientResult.ok [{ id := "a1" }]
    ∧ ¬ (((([({ id := "a1" } : ActivitySummary)]).length : Int)) ≤ -1) :=
  ⟨rfl, by decide⟩

/-- C7 (amended): for every nonnegative caller-supplied limit, each
list-returning operation returns at most limit items: the three client
methods truncate the deserialized list with take, and the
upcoming-workouts item list is bounded by the limit. -/
theorem list_results_respect_nonneg_limit (limit : Int) (h : 0 ≤ limit) :
    (∀ xs : List ActivitySummary,
        ICUClient.get_activities (ClientResult.ok xs) limit
            = ClientResult.ok (xs.take limit.toNat)
          ∧ ((xs.take limit.toNat).length : Int) ≤ limit)
      ∧ (∀ xs : List ActivitySearchResult,
          ICUClient.search_activities (ClientResult.ok xs) limit
              = ClientResult.ok (xs.take limit.toNat)
            ∧ ((xs.take limit.toNat).length : Int) ≤ limit)
      ∧ (∀ xs : List JVal,
          ICUClient.search_intervals (ClientResult.ok xs) limit
              = ClientResult.ok (xs.take limit.toNat)
            ∧ ((xs.take limit.toNat).length : Int) ≤ limit)
      ∧ (∀ (today : Int) (events : List Event) (items : List UpcomingItem),
          (pySlice limit
              ((events.filter (fun e => e.category = some "WORKOUT")).insertionSort
                eventLe)).mapM (mkUpcomingItem today) = Except.ok items →
          ((items.length : Int) ≤ limit)) := by
  have hlen : ∀ {α : Type} (xs : List α), ((xs.take limit.toNat).length : Int) ≤ limit := by
    intro α xs
    have h1 : (xs.take limit.toNat).length ≤ limit.toNat := List.length_take_le _ _
    omega
  refine ⟨?_, ?_, ?_, ?_⟩
  · intro xs
    exact ⟨by unfold ICUClient.get_activities; dsimp only; rw [pySlice_nonneg limit h], hlen xs⟩
  · intro xs
    exact ⟨by unfold ICUClient.search_activities; dsimp only; rw [pySlice_nonneg limit h], hlen xs⟩
  · intro xs
    exact ⟨by unfold ICUClient.search_intervals; dsimp only; rw [pySlice_nonneg limit h], hlen xs⟩
  · intro today events items hmap
    have h1 := mapM_except_ok_length _ _ _ hmap
    have h2 := pySlice_length_le limit h
      ((events.filter (fun e => e.category = some "WORKOUT")).insertionSort eventLe)
    omega

/-- Witness for C7 at limit 1 on a two-element list: one item comes
back and one is at most the limit. -/
theorem list_results_respect_nonneg_limit_witness :
    ICUClient.get_activities
        (ClientResult.ok [{ id := "a1" }, { id := "a2" }]) 1
      = ClientResult.ok (([({ id := "a1" } : ActivitySummary), { id := "a2" }]).take
          (Int.toNat 1))
    ∧ ((([({ id := "a1" } : ActivitySummary), { id := "a2" }]).take (Int.toNat 1)).length : Int)
        ≤ 1 :=
  (list_results_respect_nonneg_limit 1 (by decide)).1 [{ id := "a1" }, { id := "a2" }]

/-- C9 counterexample: one upcoming workout with training load -5 has a
list sum of -5, which is not zero, yet the tool reports
total_planned_load as null rather than the sum -5: the code tests for a
positive sum, not a zero sum. -/
theorem upcoming_total_load_negative_sum_reported_null :
    (get_upcoming_workouts 7 19723 (some ⟨"a", "k"⟩)
        (fun _ _ => ClientResult.ok
          [{ id := 1, start_date_local := "2024-01-02", category := some "WORKOUT",
             icu_training_load := some (-5) }])).1
      = ToolOutcome.returned
          (buildResponse
            (JVal.obj
              [("workouts", JVal.arr
                [JVal.obj
                  [("date", JVal.str "2024-01-02"),
                   ("relative_timing", JVal.str "tomorrow"),
                   ("name", JVal.str "Workout"),
                   ("training_load", JVal.int (-5))]]),
               ("count", JVal.int (1 : Nat)),
               ("total_planned_load", JVal.null)])
            none (some "upcoming_workouts") none)
    ∧ totalPlannedLoad
        [{ id := 1, start_date_local := "2024-01-02", category := some "WORKOUT",
           icu_training_load := some (-5) }] = -5
    ∧ ¬ ((-5 : Int) = 0) :=
  ⟨rfl, rfl, by decide⟩

/-- C9 (amended): the reported total planned load is the sum of the
truncated items training-load fields with absent values as 0, and it is
reported as null exactly when that sum is nonpositive (in particular
when it is zero), otherwise as the sum itself. -/
theorem upcoming_total_load_null_iff_nonpositive (limit today : Int) (cfg : ICUConfig)
    (events : List Event) (items : List UpcomingItem)
    (hne : events.filter (fun e => e.category = some "WORKOUT") ≠ [])
    (hmap : (pySlice limit
        ((events.filter (fun e => e.category = some "WORKOUT")).insertionSort
          eventLe)).mapM (mkUpcomingItem today) = Except.ok items) :
    ((get_upcoming_workouts limit today (some cfg) (fun _ _ => ClientResult.ok events)).1
      = ToolOutcome.returned
          (buildResponse
            (JVal.obj
              [("workouts", JVal.arr (items.map upcomingItemJson)),
               ("count", JVal.int items.length),
               ("total_planned_load",
                 if 0 < totalPlannedLoad (pySlice limit
                     ((events.filter (fun e => e.category = some "WORKOUT")).insertionSort
                       eventLe))
                 then JVal.int (totalPlannedLoad (pySlice limit
                     ((events.filter (fun e => e.category = some "WORKOUT")).insertionSort
                       eventLe)))
                 else JVal.null)])
            none (some "upcoming_workouts") none))
    ∧ ((if 0 < totalPlannedLoad (pySlice limit
            ((events.filter (fun e => e.category = some "WORKOUT")).insertionSort eventLe))
        then JVal.int (totalPlannedLoad (pySlice limit
            ((events.filter (fun e => e.category = some "WORKOUT")).insertionSort eventLe)))
        else JVal.null) = JVal.null
      ↔ totalPlannedLoad (pySlice limit
          ((events.filter (fun e => e.category = some "WORKOUT")).insertionSort eventLe)) ≤ 0)
    ∧ totalPlannedLoad (pySlice limit
          ((events.filter (fun e => e.category = some "WORKOUT")).insertionSort eventLe))
        = ((pySlice limit
            ((events.filter (fun e => e.category = some "WORKOUT")).insertionSort
              eventLe)).map (fun w => w.icu_training_load.getD 0)).sum := by
  refine ⟨?_, ?_, rfl⟩
  · unfold get_upcoming_workouts
    dsimp only
    rw [if_neg (by simpa using hne), hmap]
  · split
    · exact iff_of_false (fun h => by cases h) (by omega)
    · exact iff_of_true rfl (by omega)

/-- Witness for C9 at a single workout of load 50: the sum is positive,
so the reported total is the integer 50 and the null characterization
holds concretely. -/
theorem upcoming_total_load_null_iff_nonpositive_witness :
    ((get_upcoming_workouts 7 19723 (some ⟨"a", "k"⟩)
        (fun _ _ => ClientResult.ok
          [{ id := 1, start_date_local := "2024-01-02", category := some "WORKOUT",
             icu_training_load := some 50 }])).1
      = ToolOutcome.returned
          (buildResponse
            (JVal.obj
              [("workouts", JVal.arr
                ([({ date := "2024-01-02", relative_timing := "tomorrow", name := "Workout",
                     type := none, distance_meters := none, duration_seconds := none,
                     training_load := some 50, intensity_factor := none,
                     description := none } : UpcomingItem)].map upcomingItemJson)),
               ("count", JVal.int (1 : Nat)),
               ("total_planned_load",
                 if 0 < totalPlannedLoad (pySlice 7
                     (([({ id := 1, start_date_local := "2024-01-02",
                           category := some "WORKOUT",
                           icu_training_load := some 50 } : Event)].filter
                        (fun e => e.category = some "WORKOUT")).insertionSort eventLe))
                 then JVal.int (totalPlannedLoad (pySlice 7
                     (([({ id := 1, start_date_local := "2024-01-02",
                           category := some "WORKOUT",
                           icu_training_load := some 50 } : Event)].filter
                        (fun e => e.category = some "WORKOUT")).insertionSort eventLe)))
                 else JVal.null)])
            none (some "upcoming_workouts") none))
    ∧ ((if 0 < totalPlannedLoad (pySlice 7
            (([({ id := 1, start_date_local := "2024-01-02", category := some "WORKOUT",
                  icu_training_load := some 50 } : Event)].filter
               (fun e => e.category = some "WORKOUT")).insertionSort eventLe))
        then JVal.int (totalPlannedLoad (pySlice 7
            (([({ id := 1, start_date_local := "2024-01-02", category := some "WORKOUT",
                  icu_training_load := some 50 } : Event)].filter
               (fun e => e.category = some "WORKOUT")).insertionSort eventLe)))
        else JVal.null) = JVal.null
      ↔ totalPlannedLoad (pySlice 7
          (([({ id := 1, start_date_local := "2024-01-02", category := some "WORKOUT",
                icu_training_load := some 50 } : Event)].filter
             (fun e => e.category = some "WORKOUT")).insertionSort eventLe)) ≤ 0) :=
  ⟨(upcoming_total_load_null_iff_nonpositive 7 19723 ⟨"a", "k"⟩
      [{ id := 1, start_date_local := "2024-01-02", category := some "WORKOUT",
         icu_training_load := some 50 }]
      [{ date := "2024-01-02", relative_timing := "tomorrow", name := "Workout",
         type := none, distance_meters := none, duration_seconds := none,
         training_load := some 50, intensity_factor := none, description := none }]
      (by decide) rfl).1,
   (upcoming_total_load_null_iff_nonpositive 7 19723 ⟨"a", "k"⟩
      [{ id := 1, start_date_local := "2024-01-02", category := some "WORKOUT",
         icu_training_load := some 50 }]
      [{ date := "2024-01-02", relative_timing := "tomorrow", name := "Workout",
         type := none, distance_meters := none, duration_seconds := none,
         training_load := some 50, intensity_factor := none, description := none }]
      (by decide) rfl).2.1⟩

/-- Python d.get(k) on a JSON object: value of the first matching key. -/
def getKey (w : List (String × JVal)) (k : String) : Option JVal :=
  (w.find? (fun p => p.1 = k)).map Prod.snd

theorem getKey_setKey_self (w : List (String × JVal)) (k : String) (v : JVal) :
    getKey (setKey w k v) k = some v := by
  induction w with
  | nil => simp [setKey, getKey, List.find?]
  | cons p rest ih =>
    unfold setKey
    by_cases h : p.1 = k
    · rw [if_pos h]
      simp [getKey, List.find?, h]
    · rw [if_neg h]
      simpa [getKey, List.find?, h] using ih

theorem getKey_setKey_ne (w : List (String × JVal)) (k k2 : String) (v : JVal)
    (h : k2 ≠ k) : getKey (setKey w k v) k2 = getKey w k2 := by
  induction w with
  | nil =>
    have hk : k ≠ k2 := fun hh => h hh.symm
    simp [setKey, getKey, List.find?, hk]
  | cons p rest ih =>
    unfold setKey
    by_cases hp : p.1 = k
    · rw [if_pos hp]
      have hpk2 : ¬ p.1 = k2 := by rw [hp]; exact fun hh => h hh.symm
      simp [getKey, List.find?, hpk2]
    · rw [if_neg hp]
      by_cases hq : p.1 = k2
      · simp [getKey, List.find?, hq]
      · simpa [getKey, List.find?, hq] using ih

theorem hasKey_setKey (w : List (String × JVal)) (k k2 : String) (v : JVal) :
    hasKey (setKey w k v) k2 = (decide (k = k2) || hasKey w k2) := by
  induction w with
  | nil => simp [setKey, hasKey, Bool.or_comm]
  | cons p rest ih =>
    unfold setKey
    by_cases hp : p.1 = k
    · rw [if_pos hp]
      simp [hasKey, hp]
    · rw [if_neg hp]
      simp only [hasKey, List.any_cons] at ih ⊢
      rw [ih]
      cases h1 : decide (p.1 = k2) <;> cases h2 : decide (k = k2) <;> simp_all


theorem getKey_foldl_defaults_notmem (ds : List (String × JVal)) :
    ∀ (w : List (String × JVal)) (k : String), (∀ p ∈ ds, p.1 ≠ k) →
    getKey (ds.foldl (fun w p => if hasKey w p.1 then w else setKey w p.1 p.2) w) k
      = getKey w k := by
  induction ds with
  | nil => intro w k _; rfl
  | cons d rest ih =>
    intro w k h
    rw [List.foldl_cons]
    have hd : d.1 ≠ k := h d (List.mem_cons_self _ _)
    have hrest : ∀ p ∈ rest, p.1 ≠ k := fun p hp => h p (List.mem_cons_of_mem _ hp)
    rw [ih _ k hrest]
    by_cases hk : hasKey w d.1
    · rw [if_pos hk]
    · rw [if_neg hk]
      exact getKey_setKey_ne _ _ _ _ (Ne.symm hd)

theorem getKey_foldl_defaults_mem (ds : List (String × JVal)) :
    ∀ (w : List (String × JVal)) (k : String) (v : JVal),
      (k, v) ∈ ds → (ds.map Prod.fst).Nodup → hasKey w k = false →
      getKey (ds.foldl (fun w p => if hasKey w p.1 then w else setKey w p.1 p.2) w) k
        = some v := by
  induction ds with
  | nil => intro w k v hmem _ _; cases hmem
  | cons d rest ih =>
    intro w k v hmem hnd hw
    rw [List.map_cons, List.nodup_cons] at hnd
    rw [List.foldl_cons]
    rcases List.mem_cons.mp hmem with heq | hmem2
    · have hd1 : d.1 = k := by rw [← heq]
      have hd2 : d.2 = v := by rw [← heq]
      have hnotin : ∀ p ∈ rest, p.1 ≠ k := by
        intro p hp hcon
        exact hnd.1 (hd1 ▸ hcon ▸ List.mem_map_of_mem Prod.fst hp)
      rw [if_neg (by rw [hd1, hw]; exact Bool.false_ne_true)]
      rw [getKey_foldl_defaults_notmem rest _ k hnotin, hd1, hd2]
      exact getKey_setKey_self w k v
    · have hdk : d.1 ≠ k := by
        intro hh
        exact hnd.1 (hh ▸ List.mem_map_of_mem Prod.fst hmem2)
      have hw2 : hasKey (if hasKey w d.1 then w else setKey w d.1 d.2) k = false := by
        by_cases hk : hasKey w d.1
        · rw [if_pos hk]; exact hw
        · rw [if_neg hk, hasKey_setKey]
          simp [hw, hdk]
      exact ih _ k v hmem2 hnd.2 hw2

theorem applyDefaults_fills (w : List (String × JVal)) :
    (hasKey w "indoor" = false →
        getKey (applyDefaults w) "indoor" = some (JVal.bool false))
      ∧ (hasKey w "attachments" = false →
          getKey (applyDefaults w) "attachments" = some (JVal.arr []))
      ∧ (hasKey w "joules" = false →
          getKey (applyDefaults w) "joules" = some (JVal.int 0))
      ∧ (hasKey w "joules_above_ftp" = false →
          getKey (applyDefaults w) "joules_above_ftp" = some (JVal.int 0))
      ∧ (hasKey w "sub_type" = false →
          getKey (applyDefaults w) "sub_type" = some (JVal.str "NONE")) := by
  have hnd : (workoutDefaults.map Prod.fst).Nodup := by
    simp [workoutDefaults]
  refine ⟨?_, ?_, ?_, ?_, ?_⟩ <;>
    intro h <;>
    exact getKey_foldl_defaults_mem workoutDefaults w _ _ (by simp [workoutDefaults]) hnd h


/-- The first offending (index, field) pair of a batch of workout
objects, indices scanned in order and fields in the documented order. -/
def firstInvalid (ws : List (List (String × JVal))) : Option (Nat × String) :=
  match ws with
  | [] => none
  | w :: rest =>
    match firstMissingField w with
    | some f => some (0, f)
    | none => (firstInvalid rest).map (fun p => (p.1 + 1, p.2))

theorem validateWorkoutsCreateAux_spec (ws : List (List (String × JVal))) :
    ∀ i : Nat,
      validateWorkoutsCreateAux i (ws.map JVal.obj)
        = match firstInvalid ws with
          | some (j, f) =>
            Except.error
              ("Workout at index " ++ toString (i + j) ++ " missing required field: " ++ f)
          | none => Except.ok (ws.map applyDefaults) := by
  induction ws with
  | nil => intro i; rfl
  | cons w rest ih =>
    intro i
    rw [List.map_cons]
    unfold validateWorkoutsCreateAux firstInvalid
    dsimp only
    cases hf : firstMissingField w with
    | some f =>
      dsimp only
      rw [Nat.add_zero]
    | none =>
      dsimp only
      simp only [bind, Except.bind]
      rw [ih (i + 1)]
      cases hr : firstInvalid rest with
      | none => rfl
      | some p =>
        have harith : i + 1 + p.1 = i + (p.1 + 1) := by omega
        dsimp only [Option.map]
        rw [harith]

theorem validateWorkoutsAddAux_spec (fid : Int) (ws : List (List (String × JVal))) :
    ∀ i : Nat,
      validateWorkoutsAddAux fid i (ws.map JVal.obj)
        = match firstInvalid ws with
          | some (j, f) =>
            Except.error
              ("Workout at index " ++ toString (i + j) ++ " missing required field: " ++ f)
          | none =>
            Except.ok (ws.map (fun w => applyDefaults (setKey w "folder_id" (JVal.int fid)))) := by
  induction ws with
  | nil => intro i; rfl
  | cons w rest ih =>
    intro i
    rw [List.map_cons]
    unfold validateWorkoutsAddAux firstInvalid
    dsimp only
    cases hf : firstMissingField w with
    | some f =>
      dsimp only
      rw [Nat.add_zero]
    | none =>
      dsimp only
      simp only [bind, Except.bind]
      rw [ih (i + 1)]
      cases hr : firstInvalid rest with
      | none => rfl
      | some p =>
        have harith : i + 1 + p.1 = i + (p.1 + 1) := by omega
        dsimp only [Option.map]
        rw [harith]

theorem firstInvalid_some_spec (ws : List (List (String × JVal))) :
    ∀ (j : Nat) (f : String), firstInvalid ws = some (j, f) →
      ∃ w0, ws[j]? = some w0 ∧ firstMissingField w0 = some f
        ∧ ∀ w ∈ ws.take j, firstMissingField w = none := by
  induction ws with
  | nil => intro j f h; cases h
  | cons w rest ih =>
    intro j f h
    unfold firstInvalid at h
    cases hf : firstMissingField w with
    | some f0 =>
      rw [hf] at h
      cases h
      exact ⟨w, by simp, hf, by simp⟩
    | none =>
      rw [hf] at h
      cases hr : firstInvalid rest with
      | none => rw [hr] at h; cases h
      | some p =>
        rw [hr] at h
        cases h
        obtain ⟨w0, h1, h2, h3⟩ := ih p.1 p.2 (by rw [hr])
        refine ⟨w0, by simpa using h1, h2, ?_⟩
        intro w2 hw2
        rw [List.take_succ_cons] at hw2
        rcases List.mem_cons.mp hw2 with hq | hq
        · rw [hq]; exact hf
        · exact h3 w2 hq


theorem firstMissingField_some_spec (w : List (String × JVal)) (f : String)
    (h : firstMissingField w = some f) :
    (f = "name" ∧ hasKey w "name" = false)
      ∨ (f = "type" ∧ hasKey w "name" = true ∧ hasKey w "type" = false)
      ∨ (f = "moving_time" ∧ hasKey w "name" = true ∧ hasKey w "type" = true
          ∧ hasKey w "moving_time" = false)
      ∨ (f = "day" ∧ hasKey w "name" = true ∧ hasKey w "type" = true
          ∧ hasKey w "moving_time" = true ∧ hasKey w "day" = false) := by
  unfold firstMissingField requiredFields at h
  cases h1 : hasKey w "name" <;> cases h2 : hasKey w "type" <;>
    cases h3 : hasKey w "moving_time" <;> cases h4 : hasKey w "day" <;>
    simp [List.find?, h1, h2, h3, h4] at h <;> simp_all

theorem firstMissingField_none_spec (w : List (String × JVal))
    (h : firstMissingField w = none) :
    hasKey w "name" = true ∧ hasKey w "type" = true ∧ hasKey w "moving_time" = true
      ∧ hasKey w "day" = true := by
  unfold firstMissingField requiredFields at h
  cases h1 : hasKey w "name" <;> cases h2 : hasKey w "type" <;>
    cases h3 : hasKey w "moving_time" <;> cases h4 : hasKey w "day" <;>
    simp [List.find?, h1, h2, h3, h4] at h <;> simp_all


/-- C3: a batch with a workout missing a mandatory field makes both bulk
tools return a validation_error naming exactly the first offending index
and field (indices scanned in order, fields in the order name, type,
moving_time, day) with an empty client log; a fully valid batch is
submitted with the five documented defaults filled into every workout
that omitted them. -/
theorem bulk_workout_required_fields_and_defaults (ws : List (List (String × JVal))) (nm : String) (desc : Option String)
    (today fid : Int) (cfg : ICUConfig)
    (createResp : JVal → ClientResult Folder)
    (bulkResp : List (List (String × JVal)) → ClientResult (List Workout)) :
    (∀ (j : Nat) (f : String), firstInvalid ws = some (j, f) →
      ((∃ w0, ws[j]? = some w0 ∧ firstMissingField w0 = some f
          ∧ (∀ w ∈ ws.take j, firstMissingField w = none)
          ∧ ((f = "name" ∧ hasKey w0 "name" = false)
             ∨ (f = "type" ∧ hasKey w0 "name" = true ∧ hasKey w0 "type" = false)
             ∨ (f = "moving_time" ∧ hasKey w0 "name" = true ∧ hasKey w0 "type" = true
                 ∧ hasKey w0 "moving_time" = false)
             ∨ (f = "day" ∧ hasKey w0 "name" = true ∧ hasKey w0 "type" = true
                 ∧ hasKey w0 "moving_time" = true ∧ hasKey w0 "day" = false)))
        ∧ create_training_plan
            { name := nm, plan_type := "PLAN", description := desc, start_date := none,
              visibility := "PRIVATE",
              workouts := some (JParse.value (JVal.arr (ws.map JVal.obj))) }
            today (some cfg) createResp bulkResp
          = (ToolOutcome.returned
              (buildErrorResponse
                ("Workout at index " ++ toString j ++ " missing required field: " ++ f)
                "validation_error"), [])
        ∧ add_workouts_to_plan fid (JParse.value (JVal.arr (ws.map JVal.obj)))
            (some cfg) bulkResp
          = (ToolOutcome.returned
              (buildErrorResponse
                ("Workout at index " ++ toString j ++ " missing required field: " ++ f)
                "validation_error"), [])))
    ∧ (firstInvalid ws = none →
        ((∀ w ∈ ws,
            (hasKey w "indoor" = false →
              getKey (applyDefaults w) "indoor" = some (JVal.bool false))
            ∧ (hasKey w "attachments" = false →
              getKey (applyDefaults w) "attachments" = some (JVal.arr []))
            ∧ (hasKey w "joules" = false →
              getKey (applyDefaults w) "joules" = some (JVal.int 0))
            ∧ (hasKey w "joules_above_ftp" = false →
              getKey (applyDefaults w) "joules_above_ftp" = some (JVal.int 0))
            ∧ (hasKey w "sub_type" = false →
              getKey (applyDefaults w) "sub_type" = some (JVal.str "NONE")))
          ∧ (∀ folder, ws ≠ [] →
              createResp (folderDataJson nm "PLAN" "PRIVATE" desc
                  (some (isoDate (autoStartDate today)))) = ClientResult.ok folder →
              (create_training_plan
                  { name := nm, plan_type := "PLAN", description := desc, start_date := none,
                    visibility := "PRIVATE",
                    workouts := some (JParse.value (JVal.arr (ws.map JVal.obj))) }
                  today (some cfg) createResp bulkResp).2
                = [ClientCall.openClient,
                   ClientCall.createFolder
                     (folderDataJson nm "PLAN" "PRIVATE" desc
                       (some (isoDate (autoStartDate today)))),
                   ClientCall.bulkCreateWorkouts
                     ((ws.map applyDefaults).map
                       (fun w => setKey w "folder_id" (JVal.int folder.id)))])
          ∧ (ws ≠ [] →
              (add_workouts_to_plan fid (JParse.value (JVal.arr (ws.map JVal.obj)))
                  (some cfg) bulkResp).2
                = [ClientCall.openClient,
                   ClientCall.bulkCreateWorkouts
                     (ws.map (fun w => applyDefaults
                       (setKey w "folder_id" (JVal.int fid))))]))) := by
  constructor
  · intro j f hji
    have hnenil : ws ≠ [] := by
      intro hcon
      rw [hcon] at hji
      cases hji
    have hval : validateWorkoutsCreateAux 0 (ws.map JVal.obj)
        = Except.error ("Workout at index " ++ toString j ++ " missing required field: " ++ f) := by
      rw [validateWorkoutsCreateAux_spec ws 0, hji]
      dsimp only
      rw [Nat.zero_add]
    have hvala : validateWorkoutsAddAux fid 0 (ws.map JVal.obj)
        = Except.error ("Workout at index " ++ toString j ++ " missing required field: " ++ f) := by
      rw [validateWorkoutsAddAux_spec fid ws 0, hji]
      dsimp only
      rw [Nat.zero_add]
    have hempty : (ws.map JVal.obj).isEmpty = false := by
      cases ws with
      | nil => exact absurd rfl hnenil
      | cons a l => rfl
    obtain ⟨w0, hg1, hg2, hg3⟩ := firstInvalid_some_spec ws j f hji
    refine ⟨⟨w0, hg1, hg2, hg3, firstMissingField_some_spec w0 f hg2⟩, ?_, ?_⟩
    · unfold create_training_plan
      dsimp only
      rw [if_neg (by decide), if_neg (by decide)]
      simp only [parseWorkoutsCreate]
      rw [hempty]
      simp only [Bool.false_eq_true, if_false]
      rw [hval]
      try simp only [Except.map]
      try rfl
    · unfold add_workouts_to_plan
      dsimp only
      simp only [parseWorkoutsAdd]
      rw [hempty]
      simp only [Bool.false_eq_true, if_false]
      rw [hvala]
      try rfl
  · intro hnone
    refine ⟨?_, ?_, ?_⟩
    · intro w _
      exact applyDefaults_fills w
    · intro folder hne hcreate
      have hval : validateWorkoutsCreateAux 0 (ws.map JVal.obj)
          = Except.ok (ws.map applyDefaults) := by
        rw [validateWorkoutsCreateAux_spec ws 0, hnone]
      have hempty : (ws.map JVal.obj).isEmpty = false := by
        cases ws with
        | nil => exact absurd rfl hne
        | cons a l => rfl
      unfold create_training_plan
      dsimp only
      rw [if_neg (by decide), if_neg (by decide)]
      simp only [parseWorkoutsCreate]
      rw [hempty]
      simp only [Bool.false_eq_true, if_false]
      rw [hval]
      simp only [Except.map, truthyStr]
      simp only [eq_self_iff_true, true_and, Bool.false_eq_true, not_false_eq_true, if_true]
      rw [hcreate]
      cases hb : bulkResp (List.map
          ((fun w => setKey w "folder_id" (JVal.int folder.id)) ∘ applyDefaults) ws) <;>
        simp [hb]
    · intro hne
      have hvala : validateWorkoutsAddAux fid 0 (ws.map JVal.obj)
          = Except.ok (ws.map (fun w => applyDefaults (setKey w "folder_id" (JVal.int fid)))) := by
        rw [validateWorkoutsAddAux_spec fid ws 0, hnone]
      have hempty : (ws.map JVal.obj).isEmpty = false := by
        cases ws with
        | nil => exact absurd rfl hne
        | cons a l => rfl
      unfold add_workouts_to_plan
      dsimp only
      simp only [parseWorkoutsAdd]
      rw [hempty]
      simp only [Bool.false_eq_true, if_false]
      rw [hvala]
      cases hb : bulkResp (ws.map (fun w => applyDefaults
          (setKey w "folder_id" (JVal.int fid)))) <;> simp [hb]


/-- Witness for C3: a two-workout batch whose second workout has only a
name: both tools report index 1, field type, and make no client call. -/
theorem bulk_workout_required_fields_and_defaults_witness :
    create_training_plan
        { name := "p", plan_type := "PLAN", description := none, start_date := none,
          visibility := "PRIVATE",
          workouts := some (JParse.value (JVal.arr
            ([[("name", JVal.str "Easy Run"), ("type", JVal.str "Run"),
               ("moving_time", JVal.int 1800), ("day", JVal.int 1)],
              [("name", JVal.str "Intervals")]].map JVal.obj))) }
        0 (some ⟨"a", "k"⟩) (fun _ => ClientResult.exn "x") (fun _ => ClientResult.exn "x")
      = (ToolOutcome.returned
          (buildErrorResponse
            ("Workout at index " ++ toString (1 : Nat) ++ " missing required field: " ++ "type")
            "validation_error"), [])
    ∧ add_workouts_to_plan 12345
        (JParse.value (JVal.arr
          ([[("name", JVal.str "Easy Run"), ("type", JVal.str "Run"),
             ("moving_time", JVal.int 1800), ("day", JVal.int 1)],
            [("name", JVal.str "Intervals")]].map JVal.obj)))
        (some ⟨"a", "k"⟩) (fun _ => ClientResult.exn "x")
      = (ToolOutcome.returned
          (buildErrorResponse
            ("Workout at index " ++ toString (1 : Nat) ++ " missing required field: " ++ "type")
            "validation_error"), []) :=
  ⟨((bulk_workout_required_fields_and_defaults
      [[("name", JVal.str "Easy Run"), ("type", JVal.str "Run"),
        ("moving_time", JVal.int 1800), ("day", JVal.int 1)],
       [("name", JVal.str "Intervals")]]
      "p" none 0 12345 ⟨"a", "k"⟩ (fun _ => ClientResult.exn "x")
      (fun _ => ClientResult.exn "x")).1 1 "type" (by decide)).2.1,
   ((bulk_workout_required_fields_and_defaults
      [[("name", JVal.str "Easy Run"), ("type", JVal.str "Run"),
        ("moving_time", JVal.int 1800), ("day", JVal.int 1)],
       [("name", JVal.str "Intervals")]]
      "p" none 0 12345 ⟨"a", "k"⟩ (fun _ => ClientResult.exn "x")
      (fun _ => ClientResult.exn "x")).1 1 "type" (by decide)).2.2⟩

/-- Helper: appending one item to its group grows the total size by one. -/
theorem insertGroup_sizes (g : List (String × List CalItem)) (k : String) (it : CalItem) :
    ((insertGroup g k it).map (fun p => p.2.length)).sum
      = ((g.map (fun p => p.2.length)).sum) + 1 := by
  induction g with
  | nil => simp [insertGroup]
  | cons p rest ih =>
    unfold insertGroup
    by_cases h : p.1 = k
    · rw [if_pos h]
      simp only [List.map_cons, List.sum_cons, List.length_append, List.length_cons,
        List.length_nil]
      omega
    · rw [if_neg h]
      simp only [List.map_cons, List.sum_cons, ih]
      omega

/-- Helper: insertion preserves the key list, appending a new key only
when absent. -/
theorem insertGroup_keys (g : List (String × List CalItem)) (k : String) (it : CalItem) :
    (insertGroup g k it).map Prod.fst
      = if k ∈ g.map Prod.fst then g.map Prod.fst
        else g.map Prod.fst ++ [k] := by
  induction g with
  | nil => simp [insertGroup]
  | cons p rest ih =>
    unfold insertGroup
    by_cases h : p.1 = k
    · rw [if_pos h]
      simp [h]
    · rw [if_neg h]
      by_cases hm : k ∈ rest.map Prod.fst
      · simp [ih, hm, List.mem_cons, Ne.symm h]
      · simp [ih, hm, List.mem_cons, Ne.symm h]

/-- Helper: insertion preserves distinctness of the group keys. -/
theorem insertGroup_nodup (g : List (String × List CalItem)) (k : String) (it : CalItem)
    (hnd : (g.map Prod.fst).Nodup) : ((insertGroup g k it).map Prod.fst).Nodup := by
  rw [insertGroup_keys]
  split
  · exact hnd
  · rename_i hnot
    rw [List.nodup_append]
    exact ⟨hnd, List.nodup_singleton k, by
      intro a ha hb
      rw [List.mem_singleton] at hb
      exact hnot (hb ▸ ha)⟩

/-- Helper: insertion preserves the invariant that every item carries
the date key of its group. -/
theorem insertGroup_dates (g : List (String × List CalItem)) (k : String) (it : CalItem)
    (hg : ∀ p ∈ g, ∀ x ∈ p.2, x.date = p.1) (hit : it.date = k) :
    ∀ p ∈ insertGroup g k it, ∀ x ∈ p.2, x.date = p.1 := by
  induction g with
  | nil =>
    intro p hp x hx
    simp [insertGroup] at hp
    rw [hp] at hx ⊢
    simp at hx
    rw [hx, hit]
  | cons q rest ih =>
    intro p hp x hx
    unfold insertGroup at hp
    by_cases h : q.1 = k
    · rw [if_pos h] at hp
      rcases List.mem_cons.mp hp with heq | hmem
      · subst heq
        simp only at hx
        rcases List.mem_append.mp hx with h1 | h2
        · exact hg q (List.mem_cons_self _ _) x h1
        · rw [List.mem_singleton] at h2
          show x.date = q.1
          rw [h2, hit, h]
      · exact hg p (List.mem_cons_of_mem _ hmem) x hx
    · rw [if_neg h] at hp
      rcases List.mem_cons.mp hp with heq | hmem
      · exact hg p (heq ▸ List.mem_cons_self q rest) x hx
      · exact ih (fun p2 hp2 => hg p2 (List.mem_cons_of_mem _ hp2)) p hmem x hx

/-- Helper: a successfully built calendar item carries the date key of
its event. -/
theorem mkCalItem_date (today : Int) (e : Event) (it : CalItem)
    (h : mkCalItem today e = Except.ok it) : it.date = dateKey e.start_date_local := by
  unfold mkCalItem at h
  dsimp only at h
  cases hp : parseDate (dateKey e.start_date_local) with
  | none => rw [hp] at h; cases h
  | some d => rw [hp] at h; cases h; rfl


/-- Helper: invariant of the grouping loop: total size grows by the
number of events, key distinctness and key correctness are preserved. -/
theorem buildEventsByDate_loop (today : Int) :
    ∀ (events : List Event) (acc groups : List (String × List CalItem)),
      events.foldlM
          (fun groups e => do
            let it ← mkCalItem today e
            pure (insertGroup groups (dateKey e.start_date_local) it))
          acc = Except.ok groups →
      ((groups.map (fun p => p.2.length)).sum
          = (acc.map (fun p => p.2.length)).sum + events.length)
        ∧ ((acc.map Prod.fst).Nodup → (groups.map Prod.fst).Nodup)
        ∧ ((∀ p ∈ acc, ∀ x ∈ p.2, x.date = p.1) →
            (∀ p ∈ groups, ∀ x ∈ p.2, x.date = p.1)) := by
  intro events
  induction events with
  | nil =>
    intro acc groups h
    simp only [List.foldlM_nil, pure, Except.pure] at h
    cases h
    exact ⟨by simp, fun h2 => h2, fun h3 => h3⟩
  | cons e rest ih =>
    intro acc groups h
    rw [List.foldlM_cons] at h
    cases hmk : mkCalItem today e with
    | error m =>
      rw [hmk] at h
      simp [Bind.bind, Except.bind] at h
    | ok it =>
      rw [hmk] at h
      simp only [Bind.bind, Except.bind, pure, Except.pure] at h
      obtain ⟨h1, h2, h3⟩ := ih (insertGroup acc (dateKey e.start_date_local) it) groups h
      refine ⟨?_, ?_, ?_⟩
      · rw [h1, insertGroup_sizes]
        simp
        omega
      · intro hnd
        exact h2 (insertGroup_nodup _ _ _ hnd)
      · intro hd
        exact h3 (insertGroup_dates _ _ _ hd (mkCalItem_date today e it hmk))


/-- C10: the calendar grouping is a partition: the group sizes sum to
the input length (also the length of the sorted list the summary counts),
keys are pairwise distinct, every item sits in the group of its own date
key, and the key is the prefix of start_date_local before the first T
(the whole string when no T occurs); the tool envelope exposes exactly
these groups and the summary of the sorted events. -/
theorem calendar_grouping_partition (da db today : Int) (events : List Event)
    (groups : List (String × List CalItem)) (cfg : ICUConfig)
    (hne : events ≠ [])
    (hgroups : buildEventsByDate today (events.insertionSort eventLe) = Except.ok groups) :
    ((groups.map (fun p => p.2.length)).sum = events.length)
      ∧ (groups.map Prod.fst).Nodup
      ∧ (∀ p ∈ groups, ∀ x ∈ p.2, x.date = p.1)
      ∧ (∀ s : String, (∀ c ∈ (dateKey s).data, c ≠ tChar)
          ∧ (dateKey s).data ++ s.data.dropWhile (fun c => c ≠ tChar) = s.data
          ∧ (tChar ∉ s.data → dateKey s = s))
      ∧ (events.insertionSort eventLe).length = events.length
      ∧ (get_calendar_events da db today (some cfg) (fun _ _ => ClientResult.ok events)).1
          = ToolOutcome.returned
              (buildResponse
                (JVal.obj
                  [("events_by_date",
                     JVal.obj (groups.map (fun g => (g.1, JVal.arr (g.2.map calItemJson))))),
                   ("date_range", dateRangeJson (today - db) (today + da)),
                   ("summary", calendarSummaryJson (events.insertionSort eventLe))])
                none (some "calendar_events") none) := by
  have hlen : (events.insertionSort eventLe).length = events.length :=
    (List.perm_insertionSort eventLe events).length_eq
  have hloop := buildEventsByDate_loop today (events.insertionSort eventLe) [] groups
    (by exact hgroups)
  refine ⟨?_, hloop.2.1 (by simp), hloop.2.2 (by simp), ?_, hlen, ?_⟩
  · simpa [hlen] using hloop.1
  · intro s
    refine ⟨?_, ?_, ?_⟩
    · intro c hc
      have := List.mem_takeWhile_imp hc
      simpa using this
    · unfold dateKey
      exact List.takeWhile_append_dropWhile _ _
    · intro hnot
      have : s.data.takeWhile (fun c => c ≠ tChar) = s.data := by
        rw [List.takeWhile_eq_self_iff]
        intro a ha
        simp
        intro hcon
        exact hnot (hcon ▸ ha)
      unfold dateKey
      rw [this]
  · have hie : events.isEmpty = false := by
      cases events with
      | nil => exact absurd rfl hne
      | cons a l => rfl
    unfold get_calendar_events
    dsimp only
    rw [hie]
    simp only [Bool.false_eq_true, if_false]
    rw [hgroups]


/-- Witness for C10: a single event dated 2024-01-02: one group of size
one, summing to the input length, with a distinct key. -/
theorem calendar_grouping_partition_witness :
    (([(("2024-01-02" : String),
        [({ date := "2024-01-02", relative_timing := "in_1_days", name := "NOTE",
            category := some "NOTE", type := none, distance_meters := none,
            duration_seconds := none, training_load := none, intensity_factor := none,
            description := none } : CalItem)])].map (fun p => p.2.length)).sum
      = ([({ id := 2, start_date_local := "2024-01-02",
             category := some "NOTE" } : Event)]).length)
    ∧ (([(("2024-01-02" : String),
          [({ date := "2024-01-02", relative_timing := "in_1_days", name := "NOTE",
              category := some "NOTE", type := none, distance_meters := none,
              duration_seconds := none, training_load := none, intensity_factor := none,
              description := none } : CalItem)])].map Prod.fst).Nodup) :=
  ⟨(calendar_grouping_partition 7 0 19723
      [{ id := 2, start_date_local := "2024-01-02", category := some "NOTE" }]
      [("2024-01-02",
        [{ date := "2024-01-02", relative_timing := "in_1_days", name := "NOTE",
           category := some "NOTE", type := none, distance_meters := none,
           duration_seconds := none, training_load := none, intensity_factor := none,
           description := none }])]
      ⟨"a", "k"⟩ (by decide) rfl).1,
   (calendar_grouping_partition 7 0 19723
      [{ id := 2, start_date_local := "2024-01-02", category := some "NOTE" }]
      [("2024-01-02",
        [{ date := "2024-01-02", relative_timing := "in_1_days", name := "NOTE",
           category := some "NOTE", type := none, distance_meters := none,
           duration_seconds := none, training_load := none, intensity_factor := none,
           description := none }])]
      ⟨"a", "k"⟩ (by decide) rfl).2.1⟩

end IntervalsIcu
